import Mathlib

/-!
# Verification of the UAVGPT mission pipeline core

A shallow embedding of the three core stages of the UAVGPT repository —
`dsl_to_json.py` (script parser), `validate_mission.py` (safety validator)
and `json_to_mavlink.py` (protocol composer) — together with theorems
settling the specification claims about them.

Modelling conventions:
* Python values appearing in `params` dictionaries are modelled by `UAV.Value`
  (`int`, `float`, `str`); Python floats are modelled as exact rationals.
* Python dicts keyed by strings are modelled as association lists; assignment
  prepends, and lookup takes the first (i.e. most recent) binding, which
  matches `dict.__setitem__`/`dict.get` observably.
* Python exceptions (IndexError, ValueError, TypeError) are modelled with
  `Except String`: a raised exception is `.error` with a message naming the
  exception, and the partially built local results are discarded, exactly as
  a Python `raise` discards the callee's locals.
* All character/string processing is done on `List Char` (`String.data`)
  with executable helpers, mirroring the corresponding Python string
  operations (`str.split`, `str.strip`, `re.sub`, `str.upper`, `in`).
-/

deriving instance DecidableEq for Except

namespace UAV

/-- A Python value as it can occur in a `params` dict of this pipeline:
an `int`, a `float` (modelled as an exact rational) or a `str`. -/
inductive Value where
  | int   (i : Int)
  | float (q : Rat)
  | str   (s : String)
deriving DecidableEq, Repr

/-- A `params` dict: association list, most recent binding first. -/
abbrev Params := List (String × Value)

/-- `d.get(k)` / `k in d`: first (most recent) binding for `k`, if any. -/
def pyGet (p : Params) (k : String) : Option Value :=
  (p.find? (fun kv => kv.1 = k)).map (fun kv => kv.2)

/-- `d.get(k, default)`. -/
def pyGetD (p : Params) (k : String) (dflt : Value) : Value :=
  (pyGet p k).getD dflt

/-- Python truthiness of a `Value` (`0`, `0.0` and `""` are falsy). -/
def pyTruthy : Value → Bool
  | .int i => i ≠ 0
  | .float q => q ≠ 0
  | .str s => s ≠ ""

/- ----------------------------------------------------------------
   Character-list string helpers (kernel-computable replacements for
   the Python string operations used by the pipeline).
   ---------------------------------------------------------------- -/

/-- Split a character list at every occurrence of `sep`
(mirrors Python `str.split(sep)` for a one-character separator). -/
def splitOnChar (sep : Char) : List Char → List (List Char)
  | [] => [[]]
  | c :: rest =>
    let r := splitOnChar sep rest
    if c = sep then [] :: r
    else match r with
      | [] => [[c]]
      | h :: t => (c :: h) :: t

/-- The characters matched by the regex class `\s` (as used by
`re.sub(r"\s+", " ", ...)` and by argument-less `str.split()`). -/
def isPySpace (c : Char) : Bool :=
  c = ' ' ∨ c = '\t' ∨ c = '\n' ∨ c = '\r' ∨ c = '\x0b' ∨ c = '\x0c'

/-- Argument-less Python `str.split()`: split on whitespace runs,
dropping empty pieces. -/
def pyWords (l : List Char) : List String :=
  ((splitOnChar ' ' (l.map (fun c => if isPySpace c then ' ' else c))).filter
    (fun w => w ≠ [])).map List.asString

/-- `pat in s` for a nonempty pattern: substring containment. -/
def listContainsSub (pat : List Char) : List Char → Bool
  | [] => List.isPrefixOf pat []
  | c :: rest => List.isPrefixOf pat (c :: rest) || listContainsSub pat rest

/-- Python `in` on strings. -/
def strContainsSub (s pat : String) : Bool :=
  listContainsSub pat.data s.data

/-- Code-point lexicographic `<=` on character lists (Python string order). -/
def charListLe : List Char → List Char → Bool
  | [], _ => true
  | _ :: _, [] => false
  | a :: as, b :: bs =>
    if a.toNat < b.toNat then true
    else if b.toNat < a.toNat then false
    else charListLe as bs

/-- Python `str.startswith`. -/
def pyStartsWith (s pat : String) : Bool :=
  List.isPrefixOf pat.data s.data

/- ----------------------------------------------------------------
   Numeric-literal recognition and conversion
   (the regex r"-?\d+(\.\d+)?" of parse_param_list and the numeric
   string forms accepted there).
   ---------------------------------------------------------------- -/

/-- A nonempty run of ASCII digits (`\d+`). -/
def digitsNonempty (l : List Char) : Bool :=
  !l.isEmpty && l.all Char.isDigit

/-- `\d+(\.\d+)?`: digits optionally followed by a decimal point and digits. -/
def numBody (l : List Char) : Bool :=
  match splitOnChar '.' l with
  | [d] => digitsNonempty d
  | [d, f] => digitsNonempty d && digitsNonempty f
  | _ => false

/-- Full match of the value regex `-?\d+(\.\d+)?` of `parse_param_list`. -/
def matchesNumber (l : List Char) : Bool :=
  match l with
  | '-' :: rest => numBody rest
  | l => numBody l

/-- Natural number denoted by a digit run. -/
def natOfDigits (l : List Char) : Nat :=
  l.foldl (fun acc c => 10 * acc + (c.toNat - 48)) 0

/-- Python `int(v)` on a string that full-matches `-?\d+`. -/
def pyIntOfString (l : List Char) : Int :=
  match l with
  | '-' :: rest => -(natOfDigits rest : Int)
  | l => (natOfDigits l : Int)

/-- Python `float(v)` on a string that full-matches `-?\d+(\.\d+)?`:
the exact rational it denotes. -/
def ratOfNumString (l : List Char) : Rat :=
  match l with
  | '-' :: rest => -(ratOfNumString rest)
  | l =>
    match splitOnChar '.' l with
    | [d, f] => (natOfDigits d : Rat) + (natOfDigits f : Rat) / ((10 : Rat) ^ f.length)
    | _ => (natOfDigits l : Rat)

/-- Python `float(x)` applied to a pipeline `Value`.  For strings we accept
exactly the optional-sign/digits/optional-decimal forms (the forms the
parser itself can emit); any other string raises `ValueError`, as
`float(...)` does on non-numeric text. -/
def pyFloat : Value → Except String Rat
  | .int i => .ok (i : Rat)
  | .float q => .ok q
  | .str s =>
    if matchesNumber s.data then .ok (ratOfNumString s.data)
    else .error "ValueError: could not convert string to float"

/-- Python `str(x)` applied to a pipeline `Value` (used only for the
`direction` parameter; any rendering of numbers without letters is
behaviourally equivalent there, since the compass tests are substring
tests for alphabetic keywords). -/
def pyStr : Value → String
  | .int i => toString i
  | .float q => toString q
  | .str s => s

/- ----------------------------------------------------------------
   dsl_to_json.py
   ---------------------------------------------------------------- -/

/-- The control clause of a step: the dict
`{"after_state": ..., "after_drone": ..., "until": ...}` built by
`parse_control` (`"NONE"`/`None` defaults as in the source). -/
structure Control where
  after_state : String
  after_drone : Option String
  until_cond : Option String
deriving DecidableEq, Repr

/-- The control dict `{"after_state": "NONE", "after_drone": None, "until": None}`. -/
def Control.none_ : Control := ⟨"NONE", none, none⟩

/-- A parsed step object, as built by `dsl_to_json`. -/
structure Step where
  state_id : String
  drone : String
  action : String
  params : Params
  control : Control
  next : Option String
deriving DecidableEq, Repr

/-- The mission JSON document returned by `dsl_to_json`. -/
structure Mission where
  mission_id : String
  drones : List String
  steps : List Step
deriving DecidableEq, Repr

/-- `ACTION_KEYWORDS` of dsl_to_json.py. -/
def ACTION_KEYWORDS : List String :=
  ["ARM", "DISARM", "TAKEOFF", "LAND", "GOTO", "HOLD",
   "CIRCLE", "RETURN", "SPEED", "YAW", "FOLLOW", "WAIT", "ROTATE", "MOVE",
   "ROI", "TRIGGER", "GIMBAL", "SERVO"]

/-- Value coercion of `parse_param_list`: a full match of `-?\d+(\.\d+)?`
becomes `float(v)` if it contains a `.`, else `int(v)`; anything else is
kept as a string. -/
def coerceValue (v : String) : Value :=
  if matchesNumber v.data then
    if v.data.contains '.' then .float (ratOfNumString v.data)
    else .int (pyIntOfString v.data)
  else .str v

/-- `parse_param_list(tokens, idx)`: scan `k=v` tokens until `AFTER`/`UNTIL`
or end of tokens.  The cursor `idx` is modelled by returning the remaining
token list.  A token containing more than one `=` makes
`k, v = tok.split("=")` raise `ValueError`; a token without `=` is skipped. -/
def parse_param_list : List String → Params → Except String (Params × List String)
  | [], params => .ok (params, [])
  | tok :: rest, params =>
    if tok = "AFTER" ∨ tok = "UNTIL" then .ok (params, tok :: rest)
    else if tok.data.contains '=' then
      match splitOnChar '=' tok.data with
      | [k, v] => parse_param_list rest ((k.asString, coerceValue v.asString) :: params)
      | _ => .error "ValueError: too many values to unpack"
    else parse_param_list rest params

/-- `parse_control(tokens, idx)`: `AFTER`/`UNTIL` plus the following token.
`tokens[idx + 1]` raises `IndexError` when `AFTER`/`UNTIL` is the last
token.  (The trailing cursor returned by the Python function is discarded
by its only caller, so it is not modelled.) -/
def parse_control : List String → Except String Control
  | [] => .ok Control.none_
  | tok :: rest =>
    if tok = "AFTER" then
      match rest with
      | [] => .error "IndexError: list index out of range"
      | target :: _ =>
        if pyStartsWith target "s" then .ok ⟨target, none, none⟩
        else .ok ⟨"NONE", some target, none⟩
    else if tok = "UNTIL" then
      match rest with
      | [] => .error "IndexError: list index out of range"
      | cond :: _ => .ok ⟨"NONE", none, some cond⟩
    else .ok Control.none_

/-- The token lists of the raw instructions of a script: collapse whitespace,
split on `;`, strip, drop empty instructions, whitespace-split each.
(Collapsing `\s+` to a single space and stripping commute with the final
whitespace-split, so the token lists below are those of the source; an
instruction is dropped by the `if c.strip()` filter exactly when its token
list is empty.) -/
def rawCmds (dsl : String) : List (List String) :=
  ((splitOnChar ';' dsl.data).map pyWords).filter (fun t => t ≠ [])

/-- `used_drones.add`: model the growing set as a duplicate-free list in
insertion order (sorted on output, below). -/
def addDrone (d : String) (l : List String) : List String :=
  if d ∈ l then l else l ++ [d]

/-- Insertion into an ascending list of strings (for `sorted(...)`). -/
def insertStr (x : String) : List String → List String
  | [] => [x]
  | y :: t => if charListLe x.data y.data then x :: y :: t else y :: insertStr x t

/-- `sorted(list(used_drones))`: ascending lexicographic sort. -/
def sortStrings (l : List String) : List String :=
  l.foldr insertStr []

/-- The per-instruction loop of `dsl_to_json`: `total` is `len(raw_cmds)`,
`counter` is `state_counter`, `drones` is `used_drones`, `steps` the
accumulated steps.  Short, mis-prefixed, action-less and unknown-action
lines are skipped (with a stderr warning in the source); `STOP` is aliased
to `HOLD`; parse errors from `parse_param_list`/`parse_control` propagate
as raised exceptions. -/
def buildSteps (total : Nat) :
    List (List String) → Nat → List String → List Step →
    Except String (List String × List Step)
  | [], _, drones, steps => .ok (drones, steps)
  | tokens :: rest, counter, drones, steps =>
    match tokens with
    | [] => buildSteps total rest counter drones steps
    | [_] => buildSteps total rest counter drones steps
    | t0 :: t1 :: tl =>
      if t0 ≠ "DRONE" then buildSteps total rest counter drones steps
      else
        -- used_drones.add(drone_id) happens before the action is examined
        let drones' := addDrone t1 drones
        match tl with
        | [] => buildSteps total rest counter drones' steps
        | action0 :: tl2 =>
          if action0 ∈ ACTION_KEYWORDS ∨ action0 = "STOP" then
            let action := if action0 ∈ ACTION_KEYWORDS then action0 else "HOLD"
            match parse_param_list tl2 [] with
            | .error e => .error e
            | .ok (params, remTok) =>
              match parse_control remTok with
              | .error e => .error e
              | .ok control =>
                let state_id := "s" ++ toString counter
                let next : Option String :=
                  if counter < total then some ("s" ++ toString (counter + 1)) else none
                buildSteps total rest (counter + 1) drones'
                  (steps ++ [⟨state_id, t1, action, params, control, next⟩])
          else buildSteps total rest counter drones' steps

/-- `dsl_to_json(dsl)`: the full parser.  `.error` models an uncaught
Python exception escaping the function. -/
def dsl_to_json (dsl : String) : Except String Mission :=
  let cmds := rawCmds dsl
  match buildSteps cmds.length cmds 1 [] [] with
  | .error e => .error e
  | .ok (drones, steps) => .ok ⟨"mission_auto", sortStrings drones, steps⟩

end UAV

namespace UAV

/- ----------------------------------------------------------------
   validate_mission.py
   ---------------------------------------------------------------- -/

/-- A simulated position `[x, y, z]` (the 3-element Python list). -/
abbrev Pos := Rat × Rat × Rat

/-- `MAX_ALTITUDE` (legal ceiling, meters). -/
def MAX_ALTITUDE : Rat := 120
/-- `MIN_ALTITUDE` (ground). -/
def MIN_ALTITUDE : Rat := 0
/-- `MAX_SPEED` (declared but unused by the checks). -/
def MAX_SPEED : Rat := 30
/-- `MAX_DISTANCE` (geofence radius, meters). -/
def MAX_DISTANCE : Rat := 500

/-- A validation issue.  The source appends formatted message strings; each
message is modelled by its structured content: the check category, the
1-based step index interpolated into the message, and the offending value.
For the geofence message the interpolated value is
`sqrt(x^2 + y^2)`; we carry the exact square `x^2 + y^2` instead (the
triggering condition `sqrt(x^2+y^2) > 500` is equivalently `x^2+y^2 >
500^2`, both sides being nonnegative). -/
inductive Issue where
  | missingAltitude (index : Nat)
  | minAltitude (index : Nat) (z : Rat)
  | maxAltitude (index : Nat) (z : Rat)
  | geofence (index : Nat) (dist2 : Rat)
deriving DecidableEq, Repr

/-- One line appended to `log_buffer`, modelled by its structured content
(in particular the interpolated values), in append order.  `geofenceFail`/
`geofenceOk` carry the squared distance (see `Issue`). -/
inductive LogEntry where
  | sepEq
  | sepDash
  | reportHeader (timestamp : String)
  | missionIdLine (mission_id : String)
  | stepHeader (index : Nat) (action : String) (params : Params)
  | syntaxOk
  | syntaxMissing (index : Nat)
  | statePrediction (p : Pos)
  | safetyMinFail (index : Nat) (z : Rat)
  | safetyMinOk (z : Rat)
  | safetyMaxFail (index : Nat) (z : Rat)
  | safetyMaxOk (z : Rat)
  | geofenceFail (index : Nat) (dist2 : Rat)
  | geofenceOk (dist2 : Rat)
  | conclusionFailed
  | totalErrors (n : Nat)
  | conclusionPassed
  | allConstraintsSatisfied
deriving DecidableEq, Repr

/-- Python `str.upper()` (ASCII, which covers every string compared here). -/
def pyUpper (s : String) : String :=
  (s.data.map Char.toUpper).asString

/-- The physics-prediction block of `validate_step` (its lines building
`next_state` from `current_state`): a separate definition because the
block is self-contained in the source.  The `float(...)` conversions can
raise (`.error`) on non-numeric string parameters. -/
def predictState (action : String) (params : Params) (current_state : Pos) :
    Except String Pos :=
  if action = "TAKEOFF" then do
      let alt ← pyFloat (pyGetD params "altitude" (pyGetD params "alt" (.int 10)))
      pure (current_state.1, current_state.2.1, alt)
    else if action = "GOTO" then do
      let x ← match pyGet params "x" with
        | some v => pyFloat v
        | none => pure current_state.1
      let y ← match pyGet params "y" with
        | some v => pyFloat v
        | none => pure current_state.2.1
      let z ← match pyGet params "z" with
        | some v => pyFloat v
        | none => pure current_state.2.2
      pure (x, y, z)
    else if action = "MOVE" then do
      let dist ← pyFloat (pyGetD params "distance" (.int 0))
      let direction := pyUpper (pyStr (pyGetD params "direction" (.str "")))
      pure (if strContainsSub direction "NORTH" then
              (current_state.1, current_state.2.1 + dist, current_state.2.2)
            else if strContainsSub direction "SOUTH" then
              (current_state.1, current_state.2.1 - dist, current_state.2.2)
            else if strContainsSub direction "EAST" then
              (current_state.1 + dist, current_state.2.1, current_state.2.2)
            else if strContainsSub direction "WEST" then
              (current_state.1 - dist, current_state.2.1, current_state.2.2)
            else if strContainsSub direction "UP" then
              (current_state.1, current_state.2.1, current_state.2.2 + dist)
            else if strContainsSub direction "DOWN" then
              (current_state.1, current_state.2.1, current_state.2.2 - dist)
            else current_state)
    else if action = "LAND" then
      pure (current_state.1, current_state.2.1, 0)
    else
      pure current_state

/-- `validate_step(step, index, current_state, log_buffer)`.

Returns the appended issues, the predicted position (the source's
`next_state`, built from a copy `list(current_state)` of the input), and
the entries appended to the log buffer, in order.  A raised conversion
error inside the prediction aborts validation, exactly as in the
source. -/
def validate_step (step : Step) (index : Nat) (current_state : Pos) :
    Except String (List Issue × Pos × List LogEntry) := do
  let action := step.action
  let params := step.params
  let log0 : List LogEntry := [.stepHeader index action params]
  -- 1. PARAMETER VERIFICATION (Syntax Check)
  let (issues1, log1) :=
    if action = "TAKEOFF" then
      if (pyGet params "altitude").isSome || (pyGet params "alt").isSome then
        (([] : List Issue), [LogEntry.syntaxOk])
      else ([Issue.missingAltitude index], [LogEntry.syntaxMissing index])
    else ([], [])
  -- 2. PHYSICS PREDICTION (Semantic Check)
  let next_state : Pos ← predictState action params current_state
  let log2 : List LogEntry := [.statePrediction next_state]
  -- 3. SAFETY CHECKS
  let (issuesA, logA) :=
    if next_state.2.2 < MIN_ALTITUDE then
      ([Issue.minAltitude index next_state.2.2], [LogEntry.safetyMinFail index next_state.2.2])
    else ([], [LogEntry.safetyMinOk next_state.2.2])
  let (issuesB, logB) :=
    if next_state.2.2 > MAX_ALTITUDE then
      ([Issue.maxAltitude index next_state.2.2], [LogEntry.safetyMaxFail index next_state.2.2])
    else ([], [LogEntry.safetyMaxOk next_state.2.2])
  let dist2 := next_state.1 ^ 2 + next_state.2.1 ^ 2
  let (issuesC, logC) :=
    if dist2 > MAX_DISTANCE ^ 2 then
      ([Issue.geofence index dist2], [LogEntry.geofenceFail index dist2])
    else ([], [LogEntry.geofenceOk dist2])
  pure (issues1 ++ issuesA ++ issuesB ++ issuesC, next_state,
        log0 ++ log1 ++ log2 ++ logA ++ logB ++ logC)

/-- The `for i, step in enumerate(mission_json["steps"])` loop of
`run_validation`: threads the simulated position, extends `all_issues`,
and appends to the log buffer; `index` is `i + 1`. -/
def runSteps : List Step → Nat → Pos →
    Except String (List Issue × Pos × List LogEntry)
  | [], _, cur => .ok ([], cur, [])
  | s :: rest, index, cur =>
    match validate_step s index cur with
    | .error e => .error e
    | .ok (issues, nxt, logs) =>
      match runSteps rest (index + 1) nxt with
      | .error e => .error e
      | .ok (issues2, fin, logs2) => .ok (issues ++ issues2, fin, logs ++ logs2)

/-- `run_validation(mission_json)`.

The wall-clock timestamp interpolated into the report header is passed in
as `timestamp`.  The `"steps" not in mission_json` early return is
unrepresentable here because a `Mission` record always carries its steps.
The simulated position starts at the origin. -/
def run_validation (timestamp : String) (m : Mission) :
    Except String (List Issue × List LogEntry) :=
  let header : List LogEntry :=
    [.sepEq, .reportHeader timestamp, .missionIdLine m.mission_id, .sepDash]
  match runSteps m.steps 1 (0, 0, 0) with
  | .error e => .error e
  | .ok (all_issues, _, logs) =>
    let conclusion : List LogEntry :=
      if all_issues ≠ [] then [.conclusionFailed, .totalErrors all_issues.length]
      else [.conclusionPassed, .allConstraintsSatisfied]
    .ok (all_issues, header ++ logs ++ [.sepDash] ++ conclusion ++ [.sepEq])

end UAV

namespace UAV

/- ----------------------------------------------------------------
   json_to_mavlink.py
   ---------------------------------------------------------------- -/

/-- The pymavlink constants used by the composer, modelled by their
names (no claim depends on their numeric values; the library import is
the model boundary). -/
def MAV_CMD_COMPONENT_ARM_DISARM : String := "MAV_CMD_COMPONENT_ARM_DISARM"
/-- See `MAV_CMD_COMPONENT_ARM_DISARM`. -/
def MAV_CMD_NAV_TAKEOFF : String := "MAV_CMD_NAV_TAKEOFF"
/-- See `MAV_CMD_COMPONENT_ARM_DISARM`. -/
def MAV_CMD_NAV_LAND : String := "MAV_CMD_NAV_LAND"
/-- See `MAV_CMD_COMPONENT_ARM_DISARM`. -/
def MAV_CMD_NAV_WAYPOINT : String := "MAV_CMD_NAV_WAYPOINT"
/-- See `MAV_CMD_COMPONENT_ARM_DISARM`. -/
def MAV_CMD_DO_CHANGE_SPEED : String := "MAV_CMD_DO_CHANGE_SPEED"
/-- See `MAV_CMD_COMPONENT_ARM_DISARM`. -/
def MAV_CMD_CONDITION_YAW : String := "MAV_CMD_CONDITION_YAW"
/-- See `MAV_CMD_COMPONENT_ARM_DISARM`. -/
def MAV_CMD_NAV_LOITER_UNTIL : String := "MAV_CMD_NAV_LOITER_UNTIL"
/-- See `MAV_CMD_COMPONENT_ARM_DISARM`. -/
def MAV_CMD_NAV_RETURN_TO_LAUNCH : String := "MAV_CMD_NAV_RETURN_TO_LAUNCH"
/-- See `MAV_CMD_COMPONENT_ARM_DISARM`. -/
def MAV_CMD_NAV_LOITER_TURNS : String := "MAV_CMD_NAV_LOITER_TURNS"
/-- See `MAV_CMD_COMPONENT_ARM_DISARM`. -/
def MAV_FRAME_GLOBAL_RELATIVE_ALT : String := "MAV_FRAME_GLOBAL_RELATIVE_ALT"
/-- The plain integer `0` passed as the default of the `frame` keyword
argument of `_mission_item_int_dict` (used by the CIRCLE branch, which
does not pass a frame). -/
def FRAME_DEFAULT_0 : String := "0"

/-- A composed descriptor: one of the dicts appended to `generated` by
`compose_and_send_mavlink`.  Every Python dict key is an `Option` field
(`none` means the key is absent from that dict); the `"params"` key holds
a list in the `_command_long_dict`/`_mission_item_int_dict` shapes and the
raw params dict in the non-standard FOLLOW and UNSUPPORTED shapes, so it
is split into `params_list`/`params_dict` (at most one is `some`).
`"type"` is `dtype` (a Lean keyword). -/
structure Desc where
  dtype : String
  sysid : Option Int := none
  compid : Option Int := none
  command : Option String := none
  confirmation : Option Nat := none
  seq : Option Nat := none
  params_list : Option (List Value) := none
  params_dict : Option Params := none
  frame : Option String := none
  current : Option Nat := none
  autocontinue : Option Nat := none
  drone : Option String := none
  action : Option String := none
  state_id : Option String := none
  human_params : Option Params := none
  reason : Option String := none
  seconds : Option Rat := none
  control : Option Control := none
deriving DecidableEq, Repr

/-- `_command_long_dict(sysid, compid, command, params)`:
pads/truncates `params` to exactly 7 floats. -/
def _command_long_dict (sysid compid : Int) (command : String) (params : List Rat) : Desc :=
  let p := (params ++ List.replicate 7 (0 : Rat)).take 7
  { dtype := "COMMAND_LONG", sysid := some sysid, compid := some compid,
    command := some command, confirmation := some 0,
    params_list := some (p.map Value.float) }

/-- `_mission_item_int_dict(sysid, compid, seq, command, p1..p4, x, y, z,
frame, current, autocontinue)`: the `"params"` key is
`[param1, param2, param3, param4, x, y, z]`. -/
def _mission_item_int_dict (sysid compid : Int) (seq : Nat) (command : String)
    (p1 p2 p3 p4 : Value) (x y : Int) (z : Value)
    (frame : String) (current autocontinue : Nat) : Desc :=
  { dtype := "MISSION_ITEM_INT", sysid := some sysid, compid := some compid,
    seq := some seq, command := some command,
    params_list := some [p1, p2, p3, p4, .int x, .int y, z],
    frame := some frame, current := some current, autocontinue := some autocontinue }

/-- The `drone_sys_map` argument: drone id → (system_id, component_id). -/
abbrev SysMap := List (String × Int × Int)

/-- `drone in drone_sys_map` / `drone_sys_map[drone]`. -/
def sysLookup (m : SysMap) (d : String) : Option (Int × Int) :=
  (m.find? (fun kv => kv.1 = d)).map (fun kv => kv.2)

/-- `seq_counter_per_drone`, a dict drone id → next sequence number. -/
abbrev SeqMap := List (String × Nat)

/-- `seq_counter_per_drone.get(drone, 0)`. -/
def seqGet (m : SeqMap) (d : String) : Nat :=
  ((m.find? (fun kv => kv.1 = d)).map (fun kv => kv.2)).getD 0

/-- `seq_counter_per_drone[drone] = n` (most recent binding first). -/
def seqSet (m : SeqMap) (d : String) (n : Nat) : SeqMap :=
  (d, n) :: m

/-- `{d: 0 for d in mission_json.get("drones", [])}`. -/
def initSeqs (drones : List String) : SeqMap :=
  drones.map (fun d => (d, 0))

/-- Python `int(x)` on a number: truncation toward zero. -/
def pyTrunc (q : Rat) : Int :=
  if 0 ≤ q then q.floor else q.ceil

/-- `int(params.get("lat", 0) * 1e7) if params.get("lat") else 0`
(and the same for `"lon"`): the guard is Python truthiness of the
optional value; multiplying a *string* value by the float `1e7` raises
`TypeError`. -/
def latlonFixedPoint (params : Params) (key : String) : Except String Int :=
  match pyGet params key with
  | none => .ok 0
  | some v =>
    if pyTruthy v then
      match v with
      | .int i => .ok (i * 10000000)
      | .float q => .ok (pyTrunc (q * 10000000))
      | .str _ => .error "TypeError: cannot multiply sequence by non-int of type float"
    else .ok 0

/-- Truthiness of `params.get("relative", True)` in the YAW branch. -/
def relativeTruthy (params : Params) : Bool :=
  match pyGet params "relative" with
  | none => true
  | some v => pyTruthy v

/-- One iteration of the `for step in steps` loop of
`compose_and_send_mavlink`: produces the descriptor appended to
`generated` (with its `"control"` key, set at the bottom of the loop
body on the descriptor just appended) and the updated
`seq_counter_per_drone`.  A drone missing from `drone_sys_map` raises
`ValueError`; `float(...)`/`... * 1e7` conversions can raise on
non-numeric strings.  The `send` path only performs transport I/O and
never changes the returned data, so it is not modelled (send=False). -/
def composeStep (drone_sys_map : SysMap) (seqs : SeqMap) (step : Step) :
    Except String (Desc × SeqMap) := do
  let drone := step.drone
  match sysLookup drone_sys_map drone with
  | none => .error ("Drone " ++ drone ++ " not found in drone_sys_map")
  | some (sysid, compid) =>
    let action := step.action
    let params := step.params
    let control := step.control
    let state_id := step.state_id
    let seq := seqGet seqs drone
    let (md, seqs') ←
      if action = "ARM" then
        let md := _command_long_dict sysid compid MAV_CMD_COMPONENT_ARM_DISARM [1]
        pure ({ md with drone := some drone, action := some "ARM",
                        state_id := some state_id }, seqs)
      else if action = "DISARM" then
        let md := _command_long_dict sysid compid MAV_CMD_COMPONENT_ARM_DISARM [0]
        pure ({ md with drone := some drone, action := some "DISARM",
                        state_id := some state_id }, seqs)
      else if action = "TAKEOFF" then do
        let altitude ← pyFloat (pyGetD params "altitude"
          (pyGetD params "alt" (pyGetD params "z" (.int 10))))
        let lat ← latlonFixedPoint params "lat"
        let lon ← latlonFixedPoint params "lon"
        let md := _mission_item_int_dict sysid compid seq MAV_CMD_NAV_TAKEOFF
          (.int 0) (.int 0) (.int 0) (.int 0) lat lon (.float altitude)
          MAV_FRAME_GLOBAL_RELATIVE_ALT 0 1
        pure ({ md with drone := some drone, action := some "TAKEOFF",
                        state_id := some state_id, human_params := some params },
              seqSet seqs drone (seq + 1))
      else if action = "LAND" then do
        let altitude ← pyFloat (pyGetD params "altitude" (pyGetD params "alt" (.int 0)))
        let lat ← latlonFixedPoint params "lat"
        let lon ← latlonFixedPoint params "lon"
        let md := _mission_item_int_dict sysid compid seq MAV_CMD_NAV_LAND
          (.int 0) (.int 0) (.int 0) (.int 0) lat lon (.float altitude)
          MAV_FRAME_GLOBAL_RELATIVE_ALT 0 1
        pure ({ md with drone := some drone, action := some "LAND",
                        state_id := some state_id, human_params := some params },
              seqSet seqs drone (seq + 1))
      else if action = "GOTO" then do
        let md ←
          if (pyGet params "lat").isSome && (pyGet params "lon").isSome then do
            let latq ← pyFloat (pyGetD params "lat" (.int 0))
            let lonq ← pyFloat (pyGetD params "lon" (.int 0))
            let lat := pyTrunc (latq * 10000000)
            let lon := pyTrunc (lonq * 10000000)
            let alt ← pyFloat (pyGetD params "altitude"
              (pyGetD params "alt" (pyGetD params "z" (.int 0))))
            pure (_mission_item_int_dict sysid compid seq MAV_CMD_NAV_WAYPOINT
              (.int 0) (.int 0) (.int 0) (.int 0) lat lon (.float alt)
              MAV_FRAME_GLOBAL_RELATIVE_ALT 0 1)
          else
            pure { dtype := "UNSUPPORTED", drone := some drone, action := some "GOTO",
                   reason := some "Missing lat/lon", params_dict := some params : Desc }
        -- md.update(...) runs in both branches, and so does the seq increment
        pure ({ md with drone := some drone, action := some "GOTO",
                        state_id := some state_id, human_params := some params },
              seqSet seqs drone (seq + 1))
      else if action = "SPEED" then do
        let speed_type ← pyFloat (pyGetD params "type" (.int 1))
        let speed ← pyFloat (pyGetD params "speed" (pyGetD params "v" (.int 0)))
        let throttle ← pyFloat (pyGetD params "throttle" (.int 0))
        let md := _command_long_dict sysid compid MAV_CMD_DO_CHANGE_SPEED
          [speed_type, speed, throttle]
        pure ({ md with drone := some drone, action := some "SPEED",
                        state_id := some state_id, human_params := some params }, seqs)
      else if action = "YAW" then do
        let yaw ← pyFloat (pyGetD params "yaw" (pyGetD params "heading" (.int 0)))
        let speed ← pyFloat (pyGetD params "speed" (.int 0))
        let direction ← pyFloat (pyGetD params "direction" (.int 0))
        let relative : Rat := if relativeTruthy params then 1 else 0
        let md := _command_long_dict sysid compid MAV_CMD_CONDITION_YAW
          [yaw, speed, direction, relative]
        pure ({ md with drone := some drone, action := some "YAW",
                        state_id := some state_id, human_params := some params }, seqs)
      else if action = "HOLD" then do
        let timeout ← pyFloat (pyGetD params "time" (.int 0))
        let md := _mission_item_int_dict sysid compid seq MAV_CMD_NAV_LOITER_UNTIL
          (.float timeout) (.int 0) (.int 0) (.int 0) 0 0 (.int 0)
          MAV_FRAME_GLOBAL_RELATIVE_ALT 0 1
        pure (md, seqSet seqs drone (seq + 1))
      else if action = "RETURN" then
        pure (_command_long_dict sysid compid MAV_CMD_NAV_RETURN_TO_LAUNCH [], seqs)
      else if action = "CIRCLE" then do
        let turns ← pyFloat (pyGetD params "turns" (.int 1))
        let md := _mission_item_int_dict sysid compid seq MAV_CMD_NAV_LOITER_TURNS
          (.float turns) (.int 0) (.int 0) (.int 0) 0 0 (pyGetD params "alt" (.int 0))
          FRAME_DEFAULT_0 0 1
        pure (md, seqSet seqs drone (seq + 1))
      else if action = "FOLLOW" then
        if (pyGet params "target").isSome then
          pure ({ dtype := "COMMAND_LONG", sysid := some sysid, compid := some compid,
                  command := some "MAV_CMD_DO_FOLLOW (non-standard)",
                  params_dict := some params : Desc }, seqs)
        else
          pure ({ dtype := "UNSUPPORTED", drone := some drone, action := some "FOLLOW",
                  reason := some "no target provided" : Desc }, seqs)
      else if action = "WAIT" then do
        let wait_seconds ← pyFloat (pyGetD params "time" (pyGetD params "t" (.int 1)))
        pure ({ dtype := "WAIT", drone := some drone, action := some "WAIT",
                seconds := some wait_seconds, state_id := some state_id : Desc }, seqs)
      else
        pure ({ dtype := "UNSUPPORTED", drone := some drone, action := some action,
                params_dict := some params : Desc }, seqs)
    -- generated[-1]["control"] = control
    pure ({ md with control := some control }, seqs')

/-- The `for step in steps` loop: composes each step in order, threading
`seq_counter_per_drone`.  A raised exception discards the descriptors
already in `generated` (the caller never receives them). -/
def composeSteps (drone_sys_map : SysMap) :
    List Step → SeqMap → Except String (List Desc)
  | [], _ => .ok []
  | st :: rest, seqs =>
    match composeStep drone_sys_map seqs st with
    | .error e => .error e
    | .ok (d, seqs') =>
      match composeSteps drone_sys_map rest seqs' with
      | .error e => .error e
      | .ok ds => .ok (d :: ds)

/-- `compose_and_send_mavlink(mission_json, drone_sys_map)` with
`send=False` (the pure composition path; the send path only performs
transport I/O on the same data). -/
def compose_and_send_mavlink (mission : Mission) (drone_sys_map : SysMap) :
    Except String (List Desc) :=
  composeSteps drone_sys_map mission.steps (initSeqs mission.drones)

end UAV

namespace UAV

/- ----------------------------------------------------------------
   Derived predicates and reference data used by the theorems.
   ---------------------------------------------------------------- -/

/-- The instructions the parser loop accepts (i.e. turns into a step,
rather than skipping): at least three tokens, `DRONE` prefix, and a known
action or the `STOP` alias. -/
def acceptedCmd (tokens : List String) : Bool :=
  match tokens with
  | t0 :: _ :: a :: _ => decide (t0 = "DRONE" ∧ (a ∈ ACTION_KEYWORDS ∨ a = "STOP"))
  | _ => false

/-- Check 1 of `validate_step` in isolation: a `TAKEOFF` step without an
`altitude`/`alt` parameter yields a required-parameter issue. -/
def requiredParamIssues (step : Step) (index : Nat) : List Issue :=
  if step.action = "TAKEOFF" then
    if (pyGet step.params "altitude").isSome || (pyGet step.params "alt").isSome then []
    else [.missingAltitude index]
  else []

/-- Check A of `validate_step` in isolation: predicted z below ground. -/
def minAltitudeIssues (index : Nat) (p : Pos) : List Issue :=
  if p.2.2 < MIN_ALTITUDE then [.minAltitude index p.2.2] else []

/-- Check B of `validate_step` in isolation: predicted z above the ceiling. -/
def maxAltitudeIssues (index : Nat) (p : Pos) : List Issue :=
  if p.2.2 > MAX_ALTITUDE then [.maxAltitude index p.2.2] else []

/-- Check C of `validate_step` in isolation: predicted planar distance
beyond the geofence (squared comparison; see `Issue`). -/
def geofenceIssues (index : Nat) (p : Pos) : List Issue :=
  if p.1 ^ 2 + p.2.1 ^ 2 > MAX_DISTANCE ^ 2 then [.geofence index (p.1 ^ 2 + p.2.1 ^ 2)] else []

/-- The log entries `validate_step` can append (in contrast to the
report-level entries appended only by `run_validation` itself, such as
the conclusion lines). -/
def isStepLevelLog : LogEntry → Bool
  | .stepHeader _ _ _ | .syntaxOk | .syntaxMissing _ | .statePrediction _
  | .safetyMinFail _ _ | .safetyMinOk _ | .safetyMaxFail _ _ | .safetyMaxOk _
  | .geofenceFail _ _ | .geofenceOk _ => true
  | _ => false

/-- The mission document as `run_validation` leaves it.  The source only
ever reads the document (`mission_json.get("mission_id", ...)`,
`mission_json["steps"]`, iteration, and per step `step.get("action")`,
`step.get("params", {})`); it performs no assignment or in-place update
on it — its mutable state (`log_buffer`, `all_issues`, `current_state`)
is local, and `validate_step` copies the position with
`list(current_state)`.  This function replays the validator's traversal
of the document, rebuilding every step from its fields; that it is the
identity is the frame property of claim C9. -/
def run_validation_doc (m : Mission) : Mission :=
  ⟨m.mission_id, m.drones,
   m.steps.map (fun s => ⟨s.state_id, s.drone, s.action, s.params, s.control, s.next⟩)⟩

/-- Routing map `{"d1": (1, 1)}` used by the concrete composer examples. -/
def exSysMap : SysMap := [("d1", (1, 1))]

/-- A two-drone mission whose second step references the unmapped `d2`. -/
def exMissionRouting : Mission :=
  ⟨"m", ["d1", "d2"],
   [⟨"s1", "d1", "ARM", [], Control.none_, some "s2"⟩,
    ⟨"s2", "d2", "ARM", [], Control.none_, none⟩]⟩

/-- A single-step mission on the unmapped drone `d2` (first step fails). -/
def exMissionRoutingFirst : Mission :=
  ⟨"m", ["d2"], [⟨"s1", "d2", "ARM", [], Control.none_, none⟩]⟩

/-- A lat/lon-less GOTO followed by a TAKEOFF on the same drone: the GOTO
yields an UNSUPPORTED descriptor yet consumes sequence number 0. -/
def exMissionSeq : Mission :=
  ⟨"m", ["d1"],
   [⟨"s1", "d1", "GOTO", [("x", .int 5)], Control.none_, some "s2"⟩,
    ⟨"s2", "d1", "TAKEOFF", [("alt", .int 5)], Control.none_, none⟩]⟩

/-- A single HOLD step (its descriptor carries no drone / state_id key). -/
def exMissionHold : Mission :=
  ⟨"m", ["d1"], [⟨"s1", "d1", "HOLD", [], Control.none_, none⟩]⟩

/-- A FOLLOW step without a `target` parameter. -/
def exStepFollow : Step := ⟨"s1", "d1", "FOLLOW", [], Control.none_, none⟩

/-- The descriptor `compose_and_send_mavlink` produces for
`exStepFollow` (the UNSUPPORTED "no target provided" dict, with the
control clause attached at the bottom of the loop). -/
def exDescFollow : Desc :=
  { dtype := "UNSUPPORTED", drone := some "d1", action := some "FOLLOW",
    reason := some "no target provided", control := some Control.none_ }

/-- The mission produced by parsing `"X; DRONE d1 HOLD"`: the malformed
first instruction is dropped, yet the accepted step's `next` points at
the nonexistent `s2`. -/
def exMissionDangling : Mission :=
  ⟨"mission_auto", ["d1"], [⟨"s1", "d1", "HOLD", [], Control.none_, some "s2"⟩]⟩

end UAV

namespace UAV

/- ----------------------------------------------------------------
   Theorems.
   ---------------------------------------------------------------- -/

/-- C1.  The claim says `dsl_to_json` never raises and only drops bad
instructions.  In fact a trailing `AFTER` or `UNTIL` makes
`parse_control` read `tokens[idx + 1]` past the end of the list
(IndexError), and a token with two `=` signs makes
`k, v = tok.split("=")` in `parse_param_list` raise ValueError; either
exception escapes `dsl_to_json`, contradicting its own docstring
("Skips invalid lines instead of crashing").  This theorem evaluates the
parser at those failing inputs. -/
theorem c1_parser_crashes_on_malformed_line :
    dsl_to_json "DRONE d1 HOLD AFTER" = .error "IndexError: list index out of range" ∧
    dsl_to_json "DRONE d1 HOLD UNTIL" = .error "IndexError: list index out of range" ∧
    dsl_to_json "DRONE d1 GOTO x=1=2" = .error "ValueError: too many values to unpack" ∧
    dsl_to_json "DRONE d1 TAKEOFF alt=10; DRONE d2 LAND AFTER" =
      .error "IndexError: list index out of range" := by
  exact ⟨by decide, by decide, by decide, by decide⟩

/-- C2 counterexample.  Parsing `"X; DRONE d1 HOLD"` drops the malformed
first instruction; the single accepted (and therefore last) step has
`next = some "s2"` — not absent — because the source compares
`state_counter < len(raw_cmds)` against the raw instruction count. -/
theorem c2_counterexample_dangling_next :
    dsl_to_json "X; DRONE d1 HOLD" = .ok exMissionDangling ∧
    exMissionDangling.steps.map Step.next = [some "s2"] ∧
    exMissionDangling.steps.length = 1 := by
  exact ⟨by decide, by decide, by decide⟩

/-- Membership in `addDrone`. -/
theorem mem_addDrone {x d : String} {l : List String} :
    x ∈ addDrone d l ↔ x = d ∨ x ∈ l := by
  unfold addDrone
  split
  · constructor
    · exact fun h => Or.inr h
    · rintro (rfl | h)
      · assumption
      · exact h
  · simp [List.mem_append, or_comm]

/-- Membership in `insertStr`. -/
theorem mem_insertStr {x y : String} {l : List String} :
    x ∈ insertStr y l ↔ x = y ∨ x ∈ l := by
  induction l with
  | nil => simp [insertStr]
  | cons z t ih =>
    unfold insertStr
    split
    · simp
    · simp only [List.mem_cons, ih]
      tauto

/-- `sortStrings` preserves membership. -/
theorem mem_sortStrings {x : String} {l : List String} :
    x ∈ sortStrings l ↔ x ∈ l := by
  induction l with
  | nil => simp [sortStrings]
  | cons y t ih =>
    simp only [sortStrings, List.foldr_cons] at ih ⊢
    rw [mem_insertStr, ih, List.mem_cons]

end UAV

namespace UAV

/-- The step list produced by the parser loop: it extends the accumulator
with one step per accepted instruction, whose `state_id` is `s<counter+i>`
and whose `next` is `s<counter+i+1>` if `counter + i < len(raw_cmds)` and
absent otherwise — the comparison is against the *raw* command count
`total`, not the accepted count. -/
theorem buildSteps_ok_spec (total : Nat) (cmds : List (List String)) :
    ∀ (counter : Nat) (drones : List String) (steps0 : List Step)
      (dr : List String) (st : List Step),
      buildSteps total cmds counter drones steps0 = .ok (dr, st) →
      ∃ new : List Step, st = steps0 ++ new ∧
        new.length = cmds.countP acceptedCmd ∧
        ∀ i (hi : i < new.length),
          (new.get ⟨i, hi⟩).state_id = "s" ++ toString (counter + i) ∧
          (new.get ⟨i, hi⟩).next =
            if counter + i < total then some ("s" ++ toString (counter + i + 1)) else none := by
  induction cmds with
  | nil =>
    intro counter drones steps0 dr st h
    simp only [buildSteps, Except.ok.injEq, Prod.mk.injEq] at h
    obtain ⟨rfl, rfl⟩ := h
    refine ⟨[], by simp, by simp, ?_⟩
    intro i hi
    simp at hi
  | cons tokens rest ih =>
    intro counter drones steps0 dr st h
    rcases tokens with _ | ⟨t0, _ | ⟨t1, tl⟩⟩
    · simp only [buildSteps] at h
      obtain ⟨new, h1, h2, h3⟩ := ih _ _ _ _ _ h
      exact ⟨new, h1, by simpa [acceptedCmd] using h2, h3⟩
    · simp only [buildSteps] at h
      obtain ⟨new, h1, h2, h3⟩ := ih _ _ _ _ _ h
      exact ⟨new, h1, by simpa [acceptedCmd] using h2, h3⟩
    · by_cases ht0 : t0 = "DRONE"
      · subst ht0
        simp only [buildSteps] at h
        rw [if_neg (by simp : ¬ ("DRONE" : String) ≠ "DRONE")] at h
        rcases tl with _ | ⟨action0, tl2⟩
        · obtain ⟨new, h1, h2, h3⟩ := ih _ _ _ _ _ h
          exact ⟨new, h1, by simpa [acceptedCmd] using h2, h3⟩
        · dsimp only at h
          by_cases hact : action0 ∈ ACTION_KEYWORDS ∨ action0 = "STOP"
          · rw [if_pos hact] at h
            cases hpp : parse_param_list tl2 [] with
            | error e =>
              rw [hpp] at h
              exact Except.noConfusion h
            | ok pr =>
              obtain ⟨params, remTok⟩ := pr
              simp only [hpp] at h
              cases hpc : parse_control remTok with
              | error e =>
                rw [hpc] at h
                exact Except.noConfusion h
              | ok control =>
                simp only [hpc] at h
                obtain ⟨new', h1, h2, h3⟩ := ih _ _ _ _ _ h
                refine ⟨(⟨"s" ++ toString counter, t1,
                  if action0 ∈ ACTION_KEYWORDS then action0 else "HOLD", params, control,
                  if counter < total then some ("s" ++ toString (counter + 1)) else none⟩ : Step)
                  :: new', ?_, ?_, ?_⟩
                · rw [h1, List.append_assoc, List.singleton_append]
                · have hacc : acceptedCmd ("DRONE" :: t1 :: action0 :: tl2) = true := by
                    simp [acceptedCmd, hact]
                  simp [List.countP_cons, hacc, h2]
                · intro i hi
                  cases i with
                  | zero => exact ⟨by simp, by simp⟩
                  | succ n =>
                    have hn : n < new'.length := by simpa using hi
                    have hrec := h3 n hn
                    have e1 : counter + 1 + n = counter + (n + 1) := by omega
                    simpa [e1] using hrec
          · rw [if_neg hact] at h
            obtain ⟨new, h1, h2, h3⟩ := ih _ _ _ _ _ h
            refine ⟨new, h1, ?_, h3⟩
            have hacc : acceptedCmd ("DRONE" :: t1 :: action0 :: tl2) = false := by
              simp [acceptedCmd, hact]
            simp [List.countP_cons, hacc, h2]
      · simp only [buildSteps] at h
        rw [if_pos ht0] at h
        obtain ⟨new, h1, h2, h3⟩ := ih _ _ _ _ _ h
        refine ⟨new, h1, ?_, h3⟩
        have hacc : acceptedCmd (t0 :: t1 :: tl) = false := by
          rcases tl with _ | ⟨a, tl2⟩ <;> simp [acceptedCmd, ht0]
        simp [List.countP_cons, hacc, h2]

end UAV

namespace UAV

/-- The parser loop records the second token of every `DRONE`-prefixed
instruction of length ≥ 2 in `used_drones`, whether or not the
instruction is subsequently dropped. -/
theorem buildSteps_drones_spec (total : Nat) (cmds : List (List String)) :
    ∀ (counter : Nat) (drones : List String) (steps0 : List Step)
      (dr : List String) (st : List Step),
      buildSteps total cmds counter drones steps0 = .ok (dr, st) →
      (∀ x ∈ drones, x ∈ dr) ∧
      (∀ t1 tl, ("DRONE" :: t1 :: tl) ∈ cmds → t1 ∈ dr) := by
  induction cmds with
  | nil =>
    intro counter drones steps0 dr st h
    simp only [buildSteps, Except.ok.injEq, Prod.mk.injEq] at h
    obtain ⟨rfl, rfl⟩ := h
    exact ⟨fun x hx => hx, by simp⟩
  | cons tokens rest ih =>
    intro counter drones steps0 dr st h
    rcases tokens with _ | ⟨t0, _ | ⟨t1', tl'⟩⟩
    · simp only [buildSteps] at h
      obtain ⟨hsub, hmem⟩ := ih _ _ _ _ _ h
      refine ⟨hsub, ?_⟩
      intro t1 tl hc
      rcases List.mem_cons.mp hc with hc | hc
      · exact absurd hc (by simp)
      · exact hmem t1 tl hc
    · simp only [buildSteps] at h
      obtain ⟨hsub, hmem⟩ := ih _ _ _ _ _ h
      refine ⟨hsub, ?_⟩
      intro t1 tl hc
      rcases List.mem_cons.mp hc with hc | hc
      · exact absurd hc (by simp)
      · exact hmem t1 tl hc
    · by_cases ht0 : t0 = "DRONE"
      · subst ht0
        simp only [buildSteps] at h
        rw [if_neg (by simp : ¬ ("DRONE" : String) ≠ "DRONE")] at h
        have key : (∀ x ∈ addDrone t1' drones, x ∈ dr) →
            (∀ t1 tl, ("DRONE" :: t1 :: tl) ∈ rest → t1 ∈ dr) →
            (∀ x ∈ drones, x ∈ dr) ∧
            (∀ t1 tl, ("DRONE" :: t1 :: tl) ∈ ("DRONE" :: t1' :: tl') :: rest → t1 ∈ dr) := by
          intro hsub hmem
          refine ⟨fun x hx => hsub x (mem_addDrone.mpr (Or.inr hx)), ?_⟩
          intro t1 tl hc
          rcases List.mem_cons.mp hc with hc | hc
          · obtain ⟨rfl, rfl⟩ : t1 = t1' ∧ tl = tl' := by
              simpa using hc
            exact hsub _ (mem_addDrone.mpr (Or.inl rfl))
          · exact hmem t1 tl hc
        rcases tl' with _ | ⟨action0, tl2⟩
        · obtain ⟨hsub, hmem⟩ := ih _ _ _ _ _ h
          exact key hsub hmem
        · dsimp only at h
          by_cases hact : action0 ∈ ACTION_KEYWORDS ∨ action0 = "STOP"
          · rw [if_pos hact] at h
            cases hpp : parse_param_list tl2 [] with
            | error e =>
              rw [hpp] at h
              exact Except.noConfusion h
            | ok pr =>
              obtain ⟨params, remTok⟩ := pr
              simp only [hpp] at h
              cases hpc : parse_control remTok with
              | error e =>
                rw [hpc] at h
                exact Except.noConfusion h
              | ok control =>
                simp only [hpc] at h
                obtain ⟨hsub, hmem⟩ := ih _ _ _ _ _ h
                exact key hsub hmem
          · rw [if_neg hact] at h
            obtain ⟨hsub, hmem⟩ := ih _ _ _ _ _ h
            exact key hsub hmem
      · simp only [buildSteps] at h
        rw [if_pos ht0] at h
        obtain ⟨hsub, hmem⟩ := ih _ _ _ _ _ h
        refine ⟨hsub, ?_⟩
        intro t1 tl hc
        rcases List.mem_cons.mp hc with hc | hc
        · exact absurd hc (by simp [eq_comm, ht0, fun hh : "DRONE" :: t1 :: tl = t0 :: t1' :: tl' => hh])
        · exact hmem t1 tl hc

end UAV

namespace UAV

/-- C2 (amended).  For every script the parser accepts without raising,
it emits one step per accepted instruction, `state_id` sequential from
`s1`; but a step's `next` is `some s(i+2)` whenever `i + 1` is smaller
than the number of *raw* (nonempty) instructions — dropped instructions
included — and absent otherwise.  Hence `next` is absent on the last
step exactly when no instruction was dropped; if any instruction was
dropped, every step, the last included, carries a `next` pointer (the
last one dangling past the produced steps). -/
theorem c2_state_ids_and_next_chain (dsl : String) (m : Mission)
    (h : dsl_to_json dsl = .ok m) :
    m.steps.length = (rawCmds dsl).countP acceptedCmd ∧
    ∀ i (hi : i < m.steps.length),
      (m.steps.get ⟨i, hi⟩).state_id = "s" ++ toString (i + 1) ∧
      (m.steps.get ⟨i, hi⟩).next =
        if i + 1 < (rawCmds dsl).length then some ("s" ++ toString (i + 2)) else none := by
  simp only [dsl_to_json] at h
  cases hb : buildSteps (rawCmds dsl).length (rawCmds dsl) 1 [] [] with
  | error e =>
    rw [hb] at h
    exact Except.noConfusion h
  | ok pr =>
    obtain ⟨dr, st⟩ := pr
    simp only [hb, Except.ok.injEq] at h
    obtain ⟨new, hnew, hlen, hidx⟩ := buildSteps_ok_spec _ _ _ _ _ _ _ hb
    subst h
    simp only [List.nil_append] at hnew
    subst hnew
    refine ⟨hlen, ?_⟩
    intro i hi
    obtain ⟨h1, h2⟩ := hidx i hi
    have e1 : 1 + i = i + 1 := by omega
    rw [e1] at h1 h2
    have e2 : i + 1 + 1 = i + 2 := by omega
    rw [e2] at h2
    exact ⟨h1, h2⟩

/-- C2 witness: the amended statement instantiated at the
counterexample script `"X; DRONE d1 HOLD"`, whose single accepted step
gets `state_id = s1` and a dangling `next = some s2` because the raw
count (2) exceeds the accepted count (1). -/
theorem c2_state_ids_and_next_chain_witness :
    dsl_to_json "X; DRONE d1 HOLD" = .ok exMissionDangling ∧
    exMissionDangling.steps.length = (rawCmds "X; DRONE d1 HOLD").countP acceptedCmd ∧
    (exMissionDangling.steps.get ⟨0, by decide⟩).state_id = "s" ++ toString (0 + 1) ∧
    (exMissionDangling.steps.get ⟨0, by decide⟩).next =
      if 0 + 1 < (rawCmds "X; DRONE d1 HOLD").length
      then some ("s" ++ toString (0 + 2)) else none := by
  have h : dsl_to_json "X; DRONE d1 HOLD" = .ok exMissionDangling := by decide
  obtain ⟨hlen, hidx⟩ := c2_state_ids_and_next_chain _ _ h
  exact ⟨h, hlen, (hidx 0 (by decide)).1, (hidx 0 (by decide)).2⟩

/-- C10.  Whenever parsing completes, the second token of every
`DRONE`-prefixed raw instruction is in the document's `drones` list —
`used_drones.add(drone_id)` runs before the action is checked — even if
the instruction is then dropped for a missing or unknown action.
Consequently the drones list can name an id appearing in no step, as the
script `"DRONE d9 FLY"` (unknown action, so zero steps) shows. -/
theorem c10_dropped_instruction_still_records_drone
    (dsl : String) (m : Mission) (t1 : String) (tl : List String)
    (h : dsl_to_json dsl = .ok m) (hc : ("DRONE" :: t1 :: tl) ∈ rawCmds dsl) :
    t1 ∈ m.drones ∧
    dsl_to_json "DRONE d9 FLY" = .ok ⟨"mission_auto", ["d9"], []⟩ := by
  refine ⟨?_, by decide⟩
  simp only [dsl_to_json] at h
  cases hb : buildSteps (rawCmds dsl).length (rawCmds dsl) 1 [] [] with
  | error e =>
    rw [hb] at h
    exact Except.noConfusion h
  | ok pr =>
    obtain ⟨dr, st⟩ := pr
    simp only [hb, Except.ok.injEq] at h
    subst h
    obtain ⟨_, hmem⟩ := buildSteps_drones_spec _ _ _ _ _ _ _ hb
    exact mem_sortStrings.mpr (hmem t1 tl hc)

/-- C10 witness: instantiated at `"DRONE d9 FLY"`, whose only
instruction is dropped (unknown action `FLY`) yet `d9` is recorded. -/
theorem c10_dropped_instruction_still_records_drone_witness :
    "d9" ∈ (⟨"mission_auto", ["d9"], []⟩ : Mission).drones ∧
    dsl_to_json "DRONE d9 FLY" = .ok ⟨"mission_auto", ["d9"], []⟩ :=
  c10_dropped_instruction_still_records_drone "DRONE d9 FLY"
    ⟨"mission_auto", ["d9"], []⟩ "d9" ["FLY"] (by decide) (by decide)

end UAV

namespace UAV

/-- `str.split(sep)` of a separator-free string is the whole string. -/
theorem splitOnChar_of_not_mem {sep : Char} {l : List Char} (h : sep ∉ l) :
    splitOnChar sep l = [l] := by
  induction l with
  | nil => rfl
  | cons c t ih =>
    have hc : ¬(c = sep) := fun e => h (by simp [e])
    have hr : splitOnChar sep t = [t] := ih (fun hm => h (List.mem_cons_of_mem _ hm))
    simp [splitOnChar, hr, hc]

/-- `str.split(sep)` of `a + sep + b` with separator-free `a`, `b`. -/
theorem splitOnChar_sep_pair {sep : Char} {a b : List Char}
    (ha : sep ∉ a) (hb : sep ∉ b) :
    splitOnChar sep (a ++ sep :: b) = [a, b] := by
  induction a with
  | nil => simp [splitOnChar, splitOnChar_of_not_mem hb]
  | cons c t ih =>
    have hc : ¬(c = sep) := fun e => ha (by simp [e])
    have ht : sep ∉ t := fun hm => ha (List.mem_cons_of_mem _ hm)
    simp [splitOnChar, ih ht, hc]

/-- A `key=value` token with a single `=` is split into the key and the
coerced value by `parse_param_list`. -/
theorem parse_param_list_single_kv (k v : String)
    (hk : '=' ∉ k.data) (hv : '=' ∉ v.data) :
    parse_param_list [k ++ "=" ++ v] [] = .ok ([(k, coerceValue v)], []) := by
  have hdata : (k ++ "=" ++ v).data = k.data ++ '=' :: v.data := by
    simp [String.data_append]
  have hne : ¬(k ++ "=" ++ v = "AFTER" ∨ k ++ "=" ++ v = "UNTIL") := by
    rintro (he | he) <;>
    · have := congrArg String.data he
      rw [hdata] at this
      have hmem : '=' ∈ k.data ++ '=' :: v.data := by simp
      rw [this] at hmem
      simp at hmem
  have hcont : (k ++ "=" ++ v).data.contains '=' = true := by
    rw [hdata]
    simp
  unfold parse_param_list
  rw [if_neg hne, if_pos hcont, hdata, splitOnChar_sep_pair hk hv]
  show parse_param_list [] [(k.data.asString, coerceValue v.data.asString)] =
    Except.ok ([(k, coerceValue v)], [])
  have hk2 : k.data.asString = k := rfl
  have hv2 : v.data.asString = v := rfl
  rw [hk2, hv2]
  rfl

end UAV

namespace UAV

/-- C8.  Value coercion in `parse_param_list`: a value full-matching the
optional-sign/digits pattern with a decimal part becomes a float, one
without a decimal part becomes an integer, anything else stays a string;
`alt=10` yields integer 10, `alt=10.5` yields the floating value 10.5,
and `dir=north` keeps the string `"north"` — shown end to end through
`dsl_to_json`, and for a generic single `key=value` token through
`parse_param_list`. -/
theorem c8_numeric_coercion (u v w k s : String)
    (hu1 : matchesNumber u.data = true) (hu2 : u.data.contains '.' = true)
    (hv1 : matchesNumber v.data = true) (hv2 : v.data.contains '.' = false)
    (hw : matchesNumber w.data = false)
    (hk : '=' ∉ k.data) (hs : '=' ∉ s.data) :
    coerceValue u = .float (ratOfNumString u.data) ∧
    coerceValue v = .int (pyIntOfString v.data) ∧
    coerceValue w = .str w ∧
    parse_param_list [k ++ "=" ++ s] [] = .ok ([(k, coerceValue s)], []) ∧
    (dsl_to_json "DRONE d1 TAKEOFF alt=10").map (fun m => m.steps.map Step.params) =
      .ok [[("alt", .int 10)]] ∧
    (dsl_to_json "DRONE d1 TAKEOFF alt=10.5").map (fun m => m.steps.map Step.params) =
      .ok [[("alt", .float (21 / 2))]] ∧
    (dsl_to_json "DRONE d1 MOVE dir=north").map (fun m => m.steps.map Step.params) =
      .ok [[("dir", .str "north")]] := by
  refine ⟨?_, ?_, ?_, parse_param_list_single_kv k s hk hs, by decide, ?_, by decide⟩
  · simp only [coerceValue, hu1, if_true]
    rw [hu2]
    simp
  · simp only [coerceValue, hv1, if_true]
    rw [hv2]
    simp
  · simp [coerceValue, hw]
  · have hval : ratOfNumString "10.5".data = 21 / 2 := by
      show ((natOfDigits ['1', '0'] : Rat) +
        (natOfDigits ['5'] : Rat) / ((10 : Rat) ^ (['5'] : List Char).length)) = 21 / 2
      show ((10 : Nat) : Rat) + ((5 : Nat) : Rat) / ((10 : Rat) ^ (1 : Nat)) = 21 / 2
      push_cast
      norm_num
    rw [show (21 / 2 : Rat) = ratOfNumString "10.5".data from hval.symm]
    rfl

/-- C8 witness: the generic parts of `c8_numeric_coercion` instantiated
at `"10.5"`, `"10"`, `"north"` and the token `alt=7`. -/
theorem c8_numeric_coercion_witness :
    coerceValue "10.5" = .float (ratOfNumString "10.5".data) ∧
    coerceValue "10" = .int (pyIntOfString "10".data) ∧
    coerceValue "north" = .str "north" ∧
    parse_param_list ["alt" ++ "=" ++ "7"] [] = .ok ([("alt", coerceValue "7")], []) ∧
    (dsl_to_json "DRONE d1 TAKEOFF alt=10").map (fun m => m.steps.map Step.params) =
      .ok [[("alt", .int 10)]] ∧
    (dsl_to_json "DRONE d1 TAKEOFF alt=10.5").map (fun m => m.steps.map Step.params) =
      .ok [[("alt", .float (21 / 2))]] ∧
    (dsl_to_json "DRONE d1 MOVE dir=north").map (fun m => m.steps.map Step.params) =
      .ok [[("dir", .str "north")]] :=
  c8_numeric_coercion "10.5" "10" "north" "alt" "7"
    (by decide) (by decide) (by decide) (by decide) (by decide) (by decide) (by decide)

end UAV

namespace UAV

/-- C6.  The per-step position transition of `validate_step`
(projection on the returned predicted position): any action other than
TAKEOFF/GOTO/MOVE/LAND leaves the position unchanged; LAND zeroes z;
TAKEOFF sets z to the `altitude`/`alt` parameter with default 10;
GOTO overwrites exactly the coordinates given by `x`/`y`/`z` parameters;
MOVE adds the signed `distance` offset (default 0) to the single axis
selected by the `direction` keyword (NORTH +y, SOUTH -y, EAST +x,
WEST -x, UP +z, DOWN -z). -/
theorem c6_position_transition
    (sid dr : String) (ctl : Control) (nx : Option String) (idx : Nat)
    (c : Pos) (a d x y z : Rat) (p : Params) (act : String)
    (hact : act ≠ "TAKEOFF" ∧ act ≠ "GOTO" ∧ act ≠ "MOVE" ∧ act ≠ "LAND") :
    (validate_step ⟨sid, dr, act, p, ctl, nx⟩ idx c).map (fun r => r.2.1) = .ok c ∧
    (validate_step ⟨sid, dr, "LAND", p, ctl, nx⟩ idx c).map (fun r => r.2.1) =
      .ok (c.1, c.2.1, 0) ∧
    (validate_step ⟨sid, dr, "TAKEOFF", [("altitude", .float a)], ctl, nx⟩ idx c).map
      (fun r => r.2.1) = .ok (c.1, c.2.1, a) ∧
    (validate_step ⟨sid, dr, "TAKEOFF", [("alt", .float a)], ctl, nx⟩ idx c).map
      (fun r => r.2.1) = .ok (c.1, c.2.1, a) ∧
    (validate_step ⟨sid, dr, "TAKEOFF", [], ctl, nx⟩ idx c).map
      (fun r => r.2.1) = .ok (c.1, c.2.1, 10) ∧
    (validate_step ⟨sid, dr, "GOTO", [("x", .float x)], ctl, nx⟩ idx c).map
      (fun r => r.2.1) = .ok (x, c.2.1, c.2.2) ∧
    (validate_step ⟨sid, dr, "GOTO", [("y", .float y)], ctl, nx⟩ idx c).map
      (fun r => r.2.1) = .ok (c.1, y, c.2.2) ∧
    (validate_step ⟨sid, dr, "GOTO", [("z", .float z)], ctl, nx⟩ idx c).map
      (fun r => r.2.1) = .ok (c.1, c.2.1, z) ∧
    (validate_step ⟨sid, dr, "GOTO",
        [("x", .float x), ("y", .float y), ("z", .float z)], ctl, nx⟩ idx c).map
      (fun r => r.2.1) = .ok (x, y, z) ∧
    (validate_step ⟨sid, dr, "GOTO", [], ctl, nx⟩ idx c).map (fun r => r.2.1) = .ok c ∧
    (validate_step ⟨sid, dr, "MOVE",
        [("distance", .float d), ("direction", .str "NORTH")], ctl, nx⟩ idx c).map
      (fun r => r.2.1) = .ok (c.1, c.2.1 + d, c.2.2) ∧
    (validate_step ⟨sid, dr, "MOVE",
        [("distance", .float d), ("direction", .str "SOUTH")], ctl, nx⟩ idx c).map
      (fun r => r.2.1) = .ok (c.1, c.2.1 - d, c.2.2) ∧
    (validate_step ⟨sid, dr, "MOVE",
        [("distance", .float d), ("direction", .str "EAST")], ctl, nx⟩ idx c).map
      (fun r => r.2.1) = .ok (c.1 + d, c.2.1, c.2.2) ∧
    (validate_step ⟨sid, dr, "MOVE",
        [("distance", .float d), ("direction", .str "WEST")], ctl, nx⟩ idx c).map
      (fun r => r.2.1) = .ok (c.1 - d, c.2.1, c.2.2) ∧
    (validate_step ⟨sid, dr, "MOVE",
        [("distance", .float d), ("direction", .str "UP")], ctl, nx⟩ idx c).map
      (fun r => r.2.1) = .ok (c.1, c.2.1, c.2.2 + d) ∧
    (validate_step ⟨sid, dr, "MOVE",
        [("distance", .float d), ("direction", .str "DOWN")], ctl, nx⟩ idx c).map
      (fun r => r.2.1) = .ok (c.1, c.2.1, c.2.2 - d) ∧
    (validate_step ⟨sid, dr, "MOVE", [("direction", .str "UP")], ctl, nx⟩ idx c).map
      (fun r => r.2.1) = .ok (c.1, c.2.1, c.2.2 + 0) := by
  obtain ⟨h1, h2, h3, h4⟩ := hact
  refine ⟨?_, ?_, ?_, ?_, ?_, ?_, ?_, ?_, ?_, ?_, ?_, ?_, ?_, ?_, ?_, ?_, ?_⟩ <;>
    simp [validate_step, predictState, pyGet, pyGetD, pyFloat, pyStr, pyUpper,
      strContainsSub, listContainsSub, h1, h2, h3, h4, Except.map, Except.bind,
      Bind.bind, Except.pure, Pure.pure]

end UAV

namespace UAV

/-- C6 witness: the transition theorem instantiated at the origin with
concrete parameters (`act = "HOLD"` for the frame conjunct). -/
theorem c6_position_transition_witness :
    (validate_step ⟨"s1", "d1", "HOLD", [], Control.none_, none⟩ 1
      ((0 : Rat), (0 : Rat), (0 : Rat))).map (fun r => r.2.1) =
      .ok ((0 : Rat), (0 : Rat), (0 : Rat)) ∧
    (validate_step ⟨"s1", "d1", "MOVE",
        [("distance", .float 5), ("direction", .str "NORTH")], Control.none_, none⟩ 1
      ((0 : Rat), (0 : Rat), (0 : Rat))).map (fun r => r.2.1) =
      .ok ((0 : Rat), (0 : Rat) + 5, (0 : Rat)) := by
  have h := c6_position_transition "s1" "d1" Control.none_ none 1
    ((0 : Rat), (0 : Rat), (0 : Rat)) 8 5 1 2 3 [] "HOLD"
    (by refine ⟨?_, ?_, ?_, ?_⟩ <;> decide)
  exact ⟨h.1, h.2.2.2.2.2.2.2.2.2.2.1⟩

end UAV

namespace UAV

/-- `validate_step` appends only step-level log entries (never a
conclusion line). -/
theorem validate_step_logs_step_level (st : Step) (idx : Nat) (c : Pos)
    (issues : List Issue) (ns : Pos) (logs : List LogEntry)
    (h : validate_step st idx c = .ok (issues, ns, logs)) :
    ∀ e ∈ logs, isStepLevelLog e = true := by
  cases hpred : predictState st.action st.params c with
  | error e =>
    simp only [validate_step, bind, Except.bind, hpred] at h
    exact Except.noConfusion h
  | ok ns0 =>
    simp only [validate_step, bind, Except.bind, hpred, pure, Except.pure,
      Except.ok.injEq, Prod.mk.injEq] at h
    obtain ⟨-, -, hlogs⟩ := h
    subst hlogs
    intro e he
    simp only [List.mem_cons, List.mem_append] at he
    split_ifs at he <;> aesop

/-- The step loop of `run_validation` never logs a conclusion entry. -/
theorem runSteps_logs_step_level (steps : List Step) :
    ∀ (idx : Nat) (c : Pos) (out : List Issue × Pos × List LogEntry),
      runSteps steps idx c = .ok out → ∀ e ∈ out.2.2, isStepLevelLog e = true := by
  induction steps with
  | nil =>
    intro idx c out h
    simp only [runSteps, Except.ok.injEq] at h
    subst h
    intro e he
    simp at he
  | cons s rest ih =>
    intro idx c out h
    simp only [runSteps] at h
    cases hv : validate_step s idx c with
    | error e => rw [hv] at h; exact Except.noConfusion h
    | ok r =>
      obtain ⟨issues, nxt, logs⟩ := r
      simp only [hv] at h
      cases hr : runSteps rest (idx + 1) nxt with
      | error e => rw [hr] at h; exact Except.noConfusion h
      | ok out2 =>
        obtain ⟨issues2, fin, logs2⟩ := out2
        simp only [hr, Except.ok.injEq] at h
        subst h
        intro e he
        simp only [List.mem_append] at he
        rcases he with he | he
        · exact validate_step_logs_step_level s idx c issues nxt logs hv e he
        · exact ih (idx + 1) nxt (issues2, fin, logs2) hr e he

end UAV

namespace UAV

/-- C7.  Every step runs all four checks and each triggered one appends
its issue — the returned issue list of `validate_step` is exactly the
concatenation of the four independent checks on the step and its
predicted position, so none short-circuits another.  Concretely,
`GOTO x=1000 y=0` from the origin yields exactly the geofence issue
(distance 1000 > 500) and `GOTO x=100 y=0` yields no issue; and a
mission's report ends in the PASSED conclusion exactly when the issue
list accumulated over all steps is empty. -/
theorem c7_all_checks_recorded
    (st : Step) (idx : Nat) (c : Pos) (issues : List Issue) (ns : Pos) (logs : List LogEntry)
    (ts : String) (m : Mission) (issues2 : List Issue) (logs2 : List LogEntry)
    (h : validate_step st idx c = .ok (issues, ns, logs))
    (h2 : run_validation ts m = .ok (issues2, logs2)) :
    issues = requiredParamIssues st idx ++ minAltitudeIssues idx ns ++
      maxAltitudeIssues idx ns ++ geofenceIssues idx ns ∧
    (validate_step ⟨"s1", "d1", "GOTO", [("y", .int 0), ("x", .int 1000)], Control.none_, none⟩
        1 (0, 0, 0)).map (fun r => r.1) = .ok [Issue.geofence 1 1000000] ∧
    (validate_step ⟨"s1", "d1", "GOTO", [("y", .int 0), ("x", .int 100)], Control.none_, none⟩
        1 (0, 0, 0)).map (fun r => r.1) = .ok [] ∧
    (LogEntry.conclusionPassed ∈ logs2 ↔ issues2 = []) := by
  refine ⟨?_, ?_, ?_, ?_⟩
  · cases hpred : predictState st.action st.params c with
    | error e =>
      simp only [validate_step, bind, Except.bind, hpred] at h
      exact Except.noConfusion h
    | ok ns0 =>
      simp only [validate_step, bind, Except.bind, hpred, pure, Except.pure,
        Except.ok.injEq, Prod.mk.injEq] at h
      obtain ⟨hiss, hns, -⟩ := h
      subst hns
      rw [← hiss]
      unfold requiredParamIssues minAltitudeIssues maxAltitudeIssues geofenceIssues
      split_ifs <;> rfl
  · simp [validate_step, predictState, pyGet, pyFloat, Except.map, Except.bind,
      Bind.bind, Except.pure, Pure.pure, MIN_ALTITUDE, MAX_ALTITUDE, MAX_DISTANCE]
    norm_num
  · simp [validate_step, predictState, pyGet, pyFloat, Except.map, Except.bind,
      Bind.bind, Except.pure, Pure.pure, MIN_ALTITUDE, MAX_ALTITUDE, MAX_DISTANCE]
    norm_num
  · cases hrun : runSteps m.steps 1 (0, 0, 0) with
    | error e =>
      simp only [run_validation, hrun] at h2
      exact Except.noConfusion h2
    | ok out =>
      obtain ⟨als, fin, slogs⟩ := out
      simp only [run_validation, hrun, Except.ok.injEq, Prod.mk.injEq] at h2
      obtain ⟨hi2, hl2⟩ := h2
      have hstep : LogEntry.conclusionPassed ∉ slogs := by
        intro hmem
        have := runSteps_logs_step_level m.steps 1 (0, 0, 0) (als, fin, slogs) hrun
          LogEntry.conclusionPassed hmem
        simp [isStepLevelLog] at this
      rw [← hi2, ← hl2]
      by_cases hiss : als = []
      · subst hiss
        simp [hstep]
      · simp [hiss, hstep]

end UAV

namespace UAV

/-- C7 witness: the checks theorem instantiated at a concrete ARM step
from the origin and at the empty mission (whose report concludes
PASSED with an empty issue list). -/
theorem c7_all_checks_recorded_witness :
    ([] : List Issue) =
      requiredParamIssues ⟨"s1", "d1", "ARM", [], Control.none_, none⟩ 1 ++
      minAltitudeIssues 1 ((0 : Rat), (0 : Rat), (0 : Rat)) ++
      maxAltitudeIssues 1 ((0 : Rat), (0 : Rat), (0 : Rat)) ++
      geofenceIssues 1 ((0 : Rat), (0 : Rat), (0 : Rat)) ∧
    (validate_step ⟨"s1", "d1", "GOTO", [("y", .int 0), ("x", .int 1000)], Control.none_, none⟩
        1 (0, 0, 0)).map (fun r => r.1) = .ok [Issue.geofence 1 1000000] ∧
    (validate_step ⟨"s1", "d1", "GOTO", [("y", .int 0), ("x", .int 100)], Control.none_, none⟩
        1 (0, 0, 0)).map (fun r => r.1) = .ok [] ∧
    (LogEntry.conclusionPassed ∈
        ([.sepEq, .reportHeader "t", .missionIdLine "m", .sepDash, .sepDash,
          .conclusionPassed, .allConstraintsSatisfied, .sepEq] : List LogEntry) ↔
      ([] : List Issue) = []) := by
  have h : validate_step ⟨"s1", "d1", "ARM", [], Control.none_, none⟩ 1
      ((0 : Rat), (0 : Rat), (0 : Rat)) =
      .ok ([], ((0 : Rat), (0 : Rat), (0 : Rat)),
        [.stepHeader 1 "ARM" [], .statePrediction ((0 : Rat), (0 : Rat), (0 : Rat)),
         .safetyMinOk 0, .safetyMaxOk 0, .geofenceOk 0]) := by
    simp [validate_step, predictState, MIN_ALTITUDE, MAX_ALTITUDE, MAX_DISTANCE,
      Except.bind, Bind.bind, Except.pure, Pure.pure]
    norm_num
  have h2 : run_validation "t" ⟨"m", [], []⟩ =
      .ok ([], [.sepEq, .reportHeader "t", .missionIdLine "m", .sepDash, .sepDash,
        .conclusionPassed, .allConstraintsSatisfied, .sepEq]) := by decide
  exact c7_all_checks_recorded ⟨"s1", "d1", "ARM", [], Control.none_, none⟩ 1
    ((0 : Rat), (0 : Rat), (0 : Rat)) [] ((0 : Rat), (0 : Rat), (0 : Rat))
    [.stepHeader 1 "ARM" [], .statePrediction ((0 : Rat), (0 : Rat), (0 : Rat)),
     .safetyMinOk 0, .safetyMaxOk 0, .geofenceOk 0]
    "t" ⟨"m", [], []⟩ []
    [.sepEq, .reportHeader "t", .missionIdLine "m", .sepDash, .sepDash,
     .conclusionPassed, .allConstraintsSatisfied, .sepEq] h h2

end UAV

namespace UAV

/-- C9.  The validator does not mutate the Mission Document: replaying
its read-only traversal of the document (`run_validation_doc`) returns
the document unchanged — every step with its params, control and next
fields, the drones list and the mission id — and running the validator
on that replayed document returns exactly the same issue list and audit
log; the validator's outputs are only that pair. -/
theorem c9_validator_does_not_mutate_document (ts : String) (m : Mission) :
    run_validation_doc m = m ∧
    run_validation ts (run_validation_doc m) = run_validation ts m := by
  have hid : (fun s : Step =>
      (⟨s.state_id, s.drone, s.action, s.params, s.control, s.next⟩ : Step)) = id := rfl
  have h : run_validation_doc m = m := by
    cases m with
    | mk mid dr steps =>
      unfold run_validation_doc
      simp only [hid, List.map_id]
  exact ⟨h, by rw [h]⟩

end UAV

namespace UAV

/-- Every drone starts with sequence counter 0 (`{d: 0 for d in drones}`,
with `.get(drone, 0)` defaulting to 0 for unlisted drones too). -/
theorem seqGet_initSeqs (ds : List String) (dr : String) :
    seqGet (initSeqs ds) dr = 0 := by
  induction ds with
  | nil => rfl
  | cons d t ih =>
    by_cases hd : d = dr
    · simp [initSeqs, seqGet, List.find?, hd]
    · simpa [initSeqs, seqGet, List.find?, hd] using ih

/-- Reading back the drone just written. -/
theorem seqGet_seqSet_self (seqs : SeqMap) (dr : String) (n : Nat) :
    seqGet (seqSet seqs dr n) dr = n := by
  simp [seqGet, seqSet, List.find?]

/-- Writing one drone's counter leaves every other drone's unchanged. -/
theorem seqGet_seqSet_ne (seqs : SeqMap) (dr : String) (n : Nat) (d2 : String)
    (h : d2 ≠ dr) :
    seqGet (seqSet seqs dr n) d2 = seqGet seqs d2 := by
  have hne : ¬(dr = d2) := fun e => h e.symm
  simp [seqGet, seqSet, List.find?, hne]

end UAV

namespace UAV

/-- Full per-step characterization of a successful `composeStep`: the
control clause is always attached; the sequence counter of the step's
drone is incremented exactly for TAKEOFF/LAND/GOTO/HOLD/CIRCLE (other
drones' counters are untouched); a MISSION_ITEM_INT descriptor carries
the pre-increment counter and only those five actions produce one; and
which descriptors carry the `drone` / `state_id` keys, by action. -/
theorem composeStep_inversion (map : SysMap) (seqs : SeqMap) (st : Step)
    (d : Desc) (seqs2 : SeqMap) (h : composeStep map seqs st = .ok (d, seqs2)) :
    d.control = some st.control ∧
    seqGet seqs2 st.drone =
      (if st.action ∈ ["TAKEOFF", "LAND", "GOTO", "HOLD", "CIRCLE"]
       then seqGet seqs st.drone + 1 else seqGet seqs st.drone) ∧
    (∀ d2, d2 ≠ st.drone → seqGet seqs2 d2 = seqGet seqs d2) ∧
    (d.dtype = "MISSION_ITEM_INT" → d.seq = some (seqGet seqs st.drone)) ∧
    (d.dtype = "MISSION_ITEM_INT" →
      st.action ∈ ["TAKEOFF", "LAND", "GOTO", "HOLD", "CIRCLE"]) ∧
    (st.action ∈ ["ARM", "DISARM", "TAKEOFF", "LAND", "GOTO", "SPEED", "YAW", "WAIT"] →
      d.drone = some st.drone ∧ d.state_id = some st.state_id) ∧
    (st.action ∈ ["HOLD", "RETURN", "CIRCLE"] → d.drone = none ∧ d.state_id = none) ∧
    (st.action = "FOLLOW" → d.state_id = none ∧
      d.drone = (if (pyGet st.params "target").isSome then none else some st.drone)) ∧
    (st.action ∉ ["ARM", "DISARM", "TAKEOFF", "LAND", "GOTO", "SPEED", "YAW",
        "HOLD", "RETURN", "CIRCLE", "FOLLOW", "WAIT"] →
      d.drone = some st.drone ∧ d.state_id = none) := by
  simp only [composeStep, bind, Except.bind, pure, Except.pure] at h
  cases hsys : sysLookup map st.drone with
  | none =>
    rw [hsys] at h
    exact Except.noConfusion h
  | some sc =>
    obtain ⟨sy, cp⟩ := sc
    simp only [hsys] at h
    by_cases hARM : st.action = "ARM"
    · rw [if_pos hARM] at h
      simp only [bind, Except.bind, pure, Except.pure, Except.ok.injEq, Prod.mk.injEq] at h
      obtain ⟨hd, hs⟩ := h
      subst hd; subst hs
      refine ⟨rfl, ?_, ?_, ?_, ?_, ?_, ?_, ?_, ?_⟩ <;>
        first
        | (intro d2 hne
           exact seqGet_seqSet_ne _ _ _ _ hne)
        | simp [hARM, _command_long_dict, seqGet_seqSet_self, seqGet_seqSet_ne]
    · rw [if_neg hARM] at h
      by_cases hDIS : st.action = "DISARM"
      · rw [if_pos hDIS] at h
        simp only [bind, Except.bind, pure, Except.pure, Except.ok.injEq, Prod.mk.injEq] at h
        obtain ⟨hd, hs⟩ := h
        subst hd; subst hs
        refine ⟨rfl, ?_, ?_, ?_, ?_, ?_, ?_, ?_, ?_⟩ <;>
          first
          | (intro d2 hne
             exact seqGet_seqSet_ne _ _ _ _ hne)
          | simp [hDIS, _command_long_dict, seqGet_seqSet_self, seqGet_seqSet_ne]
      · rw [if_neg hDIS] at h
        by_cases hTK : st.action = "TAKEOFF"
        · rw [if_pos hTK] at h
          cases ha : pyFloat (pyGetD st.params "altitude"
              (pyGetD st.params "alt" (pyGetD st.params "z" (.int 10)))) with
          | error e =>
            simp only [ha, bind, Except.bind] at h
            all_goals exact Except.noConfusion h
          | ok alt =>
            simp only [ha, bind, Except.bind] at h
            cases hla : latlonFixedPoint st.params "lat" with
            | error e =>
              simp only [hla, bind, Except.bind] at h
              all_goals exact Except.noConfusion h
            | ok lat =>
              simp only [hla, bind, Except.bind] at h
              cases hlo : latlonFixedPoint st.params "lon" with
              | error e =>
                simp only [hlo, bind, Except.bind] at h
                all_goals exact Except.noConfusion h
              | ok lon =>
                simp only [hlo, bind, Except.bind, pure, Except.pure,
                  Except.ok.injEq, Prod.mk.injEq] at h
                obtain ⟨hd, hs⟩ := h
                subst hd; subst hs
                refine ⟨rfl, ?_, ?_, ?_, ?_, ?_, ?_, ?_, ?_⟩ <;>
                  first
                  | (intro d2 hne
                     exact seqGet_seqSet_ne _ _ _ _ hne)
                  | simp [hTK, _mission_item_int_dict, seqGet_seqSet_self, seqGet_seqSet_ne]
        · rw [if_neg hTK] at h
          by_cases hLD : st.action = "LAND"
          · rw [if_pos hLD] at h
            cases ha : pyFloat (pyGetD st.params "altitude" (pyGetD st.params "alt" (.int 0))) with
            | error e =>
              simp only [ha, bind, Except.bind] at h
              all_goals exact Except.noConfusion h
            | ok alt =>
              simp only [ha, bind, Except.bind] at h
              cases hla : latlonFixedPoint st.params "lat" with
              | error e =>
                simp only [hla, bind, Except.bind] at h
                all_goals exact Except.noConfusion h
              | ok lat =>
                simp only [hla, bind, Except.bind] at h
                cases hlo : latlonFixedPoint st.params "lon" with
                | error e =>
                  simp only [hlo, bind, Except.bind] at h
                  all_goals exact Except.noConfusion h
                | ok lon =>
                  simp only [hlo, bind, Except.bind, pure, Except.pure,
                    Except.ok.injEq, Prod.mk.injEq] at h
                  obtain ⟨hd, hs⟩ := h
                  subst hd; subst hs
                  refine ⟨rfl, ?_, ?_, ?_, ?_, ?_, ?_, ?_, ?_⟩ <;>
                    first
                    | (intro d2 hne
                       exact seqGet_seqSet_ne _ _ _ _ hne)
                    | simp [hLD, _mission_item_int_dict, seqGet_seqSet_self, seqGet_seqSet_ne]
          · rw [if_neg hLD] at h
            by_cases hGT : st.action = "GOTO"
            · rw [if_pos hGT] at h
              by_cases hll : ((pyGet st.params "lat").isSome && (pyGet st.params "lon").isSome) = true
              · rw [if_pos hll] at h
                cases hq1 : pyFloat (pyGetD st.params "lat" (.int 0)) with
                | error e =>
                  simp only [hq1, bind, Except.bind] at h
                  all_goals exact Except.noConfusion h
                | ok latq =>
                  simp only [hq1, bind, Except.bind] at h
                  cases hq2 : pyFloat (pyGetD st.params "lon" (.int 0)) with
                  | error e =>
                    simp only [hq2, bind, Except.bind] at h
                    all_goals exact Except.noConfusion h
                  | ok lonq =>
                    simp only [hq2, bind, Except.bind] at h
                    cases hq3 : pyFloat (pyGetD st.params "altitude"
                        (pyGetD st.params "alt" (pyGetD st.params "z" (.int 0)))) with
                    | error e =>
                      simp only [hq3, bind, Except.bind] at h
                      all_goals exact Except.noConfusion h
                    | ok alt =>
                      simp only [hq3, bind, Except.bind, pure, Except.pure,
                        Except.ok.injEq, Prod.mk.injEq] at h
                      obtain ⟨hd, hs⟩ := h
                      subst hd; subst hs
                      refine ⟨rfl, ?_, ?_, ?_, ?_, ?_, ?_, ?_, ?_⟩ <;>
                        first
                        | (intro d2 hne
                           exact seqGet_seqSet_ne _ _ _ _ hne)
                        | simp [hGT, _mission_item_int_dict, seqGet_seqSet_self, seqGet_seqSet_ne]
              · rw [if_neg hll] at h
                simp only [bind, Except.bind, pure, Except.pure,
                  Except.ok.injEq, Prod.mk.injEq] at h
                obtain ⟨hd, hs⟩ := h
                subst hd; subst hs
                refine ⟨rfl, ?_, ?_, ?_, ?_, ?_, ?_, ?_, ?_⟩ <;>
                  first
                  | (intro d2 hne
                     exact seqGet_seqSet_ne _ _ _ _ hne)
                  | simp [hGT, seqGet_seqSet_self, seqGet_seqSet_ne]
            · rw [if_neg hGT] at h
              by_cases hSP : st.action = "SPEED"
              · rw [if_pos hSP] at h
                cases hq1 : pyFloat (pyGetD st.params "type" (.int 1)) with
                | error e =>
                  simp only [hq1, bind, Except.bind] at h
                  all_goals exact Except.noConfusion h
                | ok q1 =>
                  simp only [hq1, bind, Except.bind] at h
                  cases hq2 : pyFloat (pyGetD st.params "speed" (pyGetD st.params "v" (.int 0))) with
                  | error e =>
                    simp only [hq2, bind, Except.bind] at h
                    all_goals exact Except.noConfusion h
                  | ok q2 =>
                    simp only [hq2, bind, Except.bind] at h
                    cases hq3 : pyFloat (pyGetD st.params "throttle" (.int 0)) with
                    | error e =>
                      simp only [hq3, bind, Except.bind] at h
                      all_goals exact Except.noConfusion h
                    | ok q3 =>
                      simp only [hq3, bind, Except.bind, pure, Except.pure,
                        Except.ok.injEq, Prod.mk.injEq] at h
                      obtain ⟨hd, hs⟩ := h
                      subst hd; subst hs
                      refine ⟨rfl, ?_, ?_, ?_, ?_, ?_, ?_, ?_, ?_⟩ <;>
                        first
                        | (intro d2 hne
                           exact seqGet_seqSet_ne _ _ _ _ hne)
                        | simp [hSP, _command_long_dict, seqGet_seqSet_self, seqGet_seqSet_ne]
              · rw [if_neg hSP] at h
                by_cases hYW : st.action = "YAW"
                · rw [if_pos hYW] at h
                  cases hq1 : pyFloat (pyGetD st.params "yaw" (pyGetD st.params "heading" (.int 0))) with
                  | error e =>
                    simp only [hq1, bind, Except.bind] at h
                    all_goals exact Except.noConfusion h
                  | ok q1 =>
                    simp only [hq1, bind, Except.bind] at h
                    cases hq2 : pyFloat (pyGetD st.params "speed" (.int 0)) with
                    | error e =>
                      simp only [hq2, bind, Except.bind] at h
                      all_goals exact Except.noConfusion h
                    | ok q2 =>
                      simp only [hq2, bind, Except.bind] at h
                      cases hq3 : pyFloat (pyGetD st.params "direction" (.int 0)) with
                      | error e =>
                        simp only [hq3, bind, Except.bind] at h
                        all_goals exact Except.noConfusion h
                      | ok q3 =>
                        simp only [hq3, bind, Except.bind, pure, Except.pure,
                          Except.ok.injEq, Prod.mk.injEq] at h
                        obtain ⟨hd, hs⟩ := h
                        subst hd; subst hs
                        refine ⟨rfl, ?_, ?_, ?_, ?_, ?_, ?_, ?_, ?_⟩ <;>
                          first
                          | (intro d2 hne
                             exact seqGet_seqSet_ne _ _ _ _ hne)
                          | simp [hYW, _command_long_dict, seqGet_seqSet_self, seqGet_seqSet_ne]
                · rw [if_neg hYW] at h
                  by_cases hHD : st.action = "HOLD"
                  · rw [if_pos hHD] at h
                    cases hq1 : pyFloat (pyGetD st.params "time" (.int 0)) with
                    | error e =>
                      simp only [hq1, bind, Except.bind] at h
                      all_goals exact Except.noConfusion h
                    | ok q1 =>
                      simp only [hq1, bind, Except.bind, pure, Except.pure,
                        Except.ok.injEq, Prod.mk.injEq] at h
                      obtain ⟨hd, hs⟩ := h
                      subst hd; subst hs
                      refine ⟨rfl, ?_, ?_, ?_, ?_, ?_, ?_, ?_, ?_⟩ <;>
                        first
                        | (intro d2 hne
                           exact seqGet_seqSet_ne _ _ _ _ hne)
                        | simp [hHD, _mission_item_int_dict, seqGet_seqSet_self, seqGet_seqSet_ne]
                  · rw [if_neg hHD] at h
                    by_cases hRT : st.action = "RETURN"
                    · rw [if_pos hRT] at h
                      simp only [bind, Except.bind, pure, Except.pure,
                        Except.ok.injEq, Prod.mk.injEq] at h
                      obtain ⟨hd, hs⟩ := h
                      subst hd; subst hs
                      refine ⟨rfl, ?_, ?_, ?_, ?_, ?_, ?_, ?_, ?_⟩ <;>
                        first
                        | (intro d2 hne
                           exact seqGet_seqSet_ne _ _ _ _ hne)
                        | simp [hRT, _command_long_dict, seqGet_seqSet_self, seqGet_seqSet_ne]
                    · rw [if_neg hRT] at h
                      by_cases hCR : st.action = "CIRCLE"
                      · rw [if_pos hCR] at h
                        cases hq1 : pyFloat (pyGetD st.params "turns" (.int 1)) with
                        | error e =>
                          simp only [hq1, bind, Except.bind] at h
                          all_goals exact Except.noConfusion h
                        | ok q1 =>
                          simp only [hq1, bind, Except.bind, pure, Except.pure,
                            Except.ok.injEq, Prod.mk.injEq] at h
                          obtain ⟨hd, hs⟩ := h
                          subst hd; subst hs
                          refine ⟨rfl, ?_, ?_, ?_, ?_, ?_, ?_, ?_, ?_⟩ <;>
                            first
                            | (intro d2 hne
                               exact seqGet_seqSet_ne _ _ _ _ hne)
                            | simp [hCR, _mission_item_int_dict, seqGet_seqSet_self, seqGet_seqSet_ne]
                      · rw [if_neg hCR] at h
                        by_cases hFL : st.action = "FOLLOW"
                        · rw [if_pos hFL] at h
                          by_cases htg : (pyGet st.params "target").isSome = true
                          · rw [if_pos htg] at h
                            simp only [bind, Except.bind, pure, Except.pure,
                              Except.ok.injEq, Prod.mk.injEq] at h
                            obtain ⟨hd, hs⟩ := h
                            subst hd; subst hs
                            refine ⟨rfl, ?_, ?_, ?_, ?_, ?_, ?_, ?_, ?_⟩ <;>
                              first
                              | (intro d2 hne
                                 exact seqGet_seqSet_ne _ _ _ _ hne)
                              | simp [hFL, htg, seqGet_seqSet_self, seqGet_seqSet_ne]
                          · rw [if_neg htg] at h
                            simp only [bind, Except.bind, pure, Except.pure,
                              Except.ok.injEq, Prod.mk.injEq] at h
                            obtain ⟨hd, hs⟩ := h
                            subst hd; subst hs
                            refine ⟨rfl, ?_, ?_, ?_, ?_, ?_, ?_, ?_, ?_⟩ <;>
                              first
                              | (intro d2 hne
                                 exact seqGet_seqSet_ne _ _ _ _ hne)
                              | simp [hFL, htg, seqGet_seqSet_self, seqGet_seqSet_ne]
                        · rw [if_neg hFL] at h
                          by_cases hWT : st.action = "WAIT"
                          · rw [if_pos hWT] at h
                            cases hq1 : pyFloat (pyGetD st.params "time" (pyGetD st.params "t" (.int 1))) with
                            | error e =>
                              simp only [hq1, bind, Except.bind] at h
                              all_goals exact Except.noConfusion h
                            | ok q1 =>
                              simp only [hq1, bind, Except.bind, pure, Except.pure,
                                Except.ok.injEq, Prod.mk.injEq] at h
                              obtain ⟨hd, hs⟩ := h
                              subst hd; subst hs
                              refine ⟨rfl, ?_, ?_, ?_, ?_, ?_, ?_, ?_, ?_⟩ <;>
                                first
                                | (intro d2 hne
                                   exact seqGet_seqSet_ne _ _ _ _ hne)
                                | simp [hWT, seqGet_seqSet_self, seqGet_seqSet_ne]
                          · rw [if_neg hWT] at h
                            simp only [bind, Except.bind, pure, Except.pure,
                              Except.ok.injEq, Prod.mk.injEq] at h
                            obtain ⟨hd, hs⟩ := h
                            subst hd; subst hs
                            refine ⟨rfl, ?_, ?_, ?_, ?_, ?_, ?_, ?_, ?_⟩ <;>
                              first
                              | (intro d2 hne
                                 exact seqGet_seqSet_ne _ _ _ _ hne)
                              | simp [hARM, hDIS, hTK, hLD, hGT, hSP, hYW, hHD, hRT,
                                hCR, hFL, hWT, seqGet_seqSet_self, seqGet_seqSet_ne]

end UAV

namespace UAV

/-- C3 counterexample.  Composing a two-step mission whose second step
names the unmapped drone `d2` does not hand the caller the descriptor
already produced for the first step: the `raise ValueError` discards the
local `generated` list, so the call yields an error and no descriptor
list at all — not a partial result. -/
theorem c3_counterexample_no_partial_result :
    compose_and_send_mavlink exMissionRouting exSysMap =
      .error "Drone d2 not found in drone_sys_map" ∧
    (compose_and_send_mavlink exMissionRouting exSysMap).isOk = false := by
  exact ⟨by decide, by decide⟩

/-- The composer loop raises the routing `ValueError` as soon as it
reaches a step whose drone is unmapped, whatever descriptors the earlier
steps produced. -/
theorem composeSteps_routing_error (map : SysMap) (st : Step) (post : List Step)
    (hroute : sysLookup map st.drone = none) :
    ∀ (pre : List Step) (seqs : SeqMap) (l : List Desc),
      composeSteps map pre seqs = .ok l →
      composeSteps map (pre ++ st :: post) seqs =
        .error ("Drone " ++ st.drone ++ " not found in drone_sys_map") := by
  intro pre
  induction pre with
  | nil =>
    intro seqs l hpre
    simp only [List.nil_append, composeSteps]
    have hstep : composeStep map seqs st =
        .error ("Drone " ++ st.drone ++ " not found in drone_sys_map") := by
      simp [composeStep, hroute]
    rw [hstep]
  | cons p rest ih =>
    intro seqs l hpre
    simp only [composeSteps] at hpre ⊢
    cases hc : composeStep map seqs p with
    | error e =>
      rw [hc] at hpre
      exact Except.noConfusion hpre
    | ok r =>
      obtain ⟨dsc, seqs2⟩ := r
      simp only [hc] at hpre ⊢
      cases hr : composeSteps map rest seqs2 with
      | error e =>
        rw [hr] at hpre
        exact Except.noConfusion hpre
      | ok ds =>
        rw [List.append_eq, ih seqs2 ds hr]

/-- C3 (amended).  A drone absent from the routing map is a fatal
routing error: composition aborts immediately at that step by raising
`ValueError`, before composing it or any later step; the descriptors
already produced for earlier steps are discarded by the raise, so the
caller receives only the error — no partial descriptor list. -/
theorem c3_routing_error_aborts_without_partial_result
    (map : SysMap) (pre post : List Step) (st : Step)
    (seqs : SeqMap) (l : List Desc) (m : Mission)
    (hroute : sysLookup map st.drone = none)
    (hpre : composeSteps map pre seqs = .ok l)
    (hm : m.steps = pre ++ st :: post)
    (hseqs : seqs = initSeqs m.drones) :
    composeSteps map (pre ++ st :: post) seqs =
      .error ("Drone " ++ st.drone ++ " not found in drone_sys_map") ∧
    compose_and_send_mavlink m map =
      .error ("Drone " ++ st.drone ++ " not found in drone_sys_map") := by
  have h1 := composeSteps_routing_error map st post hroute pre seqs l hpre
  refine ⟨h1, ?_⟩
  unfold compose_and_send_mavlink
  rw [← hseqs, hm]
  exact h1

/-- C3 witness: the amended statement instantiated at a single-step
mission on the unmapped drone `d2` (empty prefix). -/
theorem c3_routing_error_aborts_witness :
    composeSteps exSysMap ([] ++ ⟨"s1", "d2", "ARM", [], Control.none_, none⟩ :: [])
      (initSeqs ["d2"]) = .error ("Drone " ++ "d2" ++ " not found in drone_sys_map") ∧
    compose_and_send_mavlink exMissionRoutingFirst exSysMap =
      .error ("Drone " ++ "d2" ++ " not found in drone_sys_map") :=
  c3_routing_error_aborts_without_partial_result exSysMap [] []
    ⟨"s1", "d2", "ARM", [], Control.none_, none⟩ (initSeqs ["d2"]) [] exMissionRoutingFirst
    (by decide) (by decide) (by decide) (by decide)

/-- C4 counterexample.  In `exMissionSeq` the lat/lon-less GOTO yields
an UNSUPPORTED descriptor (no `seq` key) yet still consumes sequence
number 0, so the drone's first and only mission-item descriptor (the
TAKEOFF) carries `seq = 1`, not `0`. -/
theorem c4_counterexample_unsupported_goto_consumes_seq :
    (compose_and_send_mavlink exMissionSeq exSysMap).map
      (fun l => l.map (fun d => (d.dtype, d.seq))) =
    .ok [("UNSUPPORTED", none), ("MISSION_ITEM_INT", some 1)] := by
  decide

/-- C4 (amended).  Per-drone sequence counters start at 0 (for mapped
and unmapped drones alike) and are incremented exactly on steps whose
action is TAKEOFF, LAND, GOTO, HOLD or CIRCLE — a lat/lon-less GOTO
consumes a sequence number even though its descriptor is UNSUPPORTED.
Every MISSION_ITEM_INT descriptor carries the drone's pre-increment
counter, only those five actions produce one, and other drones'
counters are untouched; so a drone's mission-item `seq` values are
`0, 1, 2, …` exactly when none of its GOTO steps lacks lat/lon. -/
theorem c4_sequence_counter_per_drone (map : SysMap) (seqs : SeqMap) (st : Step)
    (d : Desc) (seqs2 : SeqMap) (h : composeStep map seqs st = .ok (d, seqs2)) :
    (∀ ds dr, seqGet (initSeqs ds) dr = 0) ∧
    seqGet seqs2 st.drone =
      (if st.action ∈ ["TAKEOFF", "LAND", "GOTO", "HOLD", "CIRCLE"]
       then seqGet seqs st.drone + 1 else seqGet seqs st.drone) ∧
    (∀ d2, d2 ≠ st.drone → seqGet seqs2 d2 = seqGet seqs d2) ∧
    (d.dtype = "MISSION_ITEM_INT" → d.seq = some (seqGet seqs st.drone)) ∧
    (d.dtype = "MISSION_ITEM_INT" →
      st.action ∈ ["TAKEOFF", "LAND", "GOTO", "HOLD", "CIRCLE"]) := by
  obtain ⟨-, h2, h3, h4, h5, -, -, -, -⟩ := composeStep_inversion map seqs st d seqs2 h
  exact ⟨seqGet_initSeqs, h2, h3, h4, h5⟩

/-- C5 counterexample.  The descriptor composed for a HOLD step carries
no `drone` and no `state_id` key at all (the HOLD branch never runs the
`md.update` the other branches run), refuting "every descriptor carries
the originating drone id and the step's state_id". -/
theorem c5_counterexample_hold_lacks_drone_and_state :
    (compose_and_send_mavlink exMissionHold exSysMap).map
      (fun l => l.map (fun d => (d.dtype, d.drone, d.state_id, d.control))) =
    .ok [("MISSION_ITEM_INT", none, none, some Control.none_)] := by
  decide

/-- C5 (amended).  Every composed descriptor carries the step's control
clause verbatim (attached at the bottom of the loop).  The originating
drone id and `state_id` are carried only for ARM, DISARM, TAKEOFF, LAND,
GOTO, SPEED, YAW and WAIT; HOLD, RETURN and CIRCLE descriptors carry
neither; FOLLOW descriptors never carry the state_id and carry the
drone only when no `target` parameter is present; unknown-action
descriptors carry the drone but not the state_id. -/
theorem c5_descriptor_provenance (map : SysMap) (seqs : SeqMap) (st : Step)
    (d : Desc) (seqs2 : SeqMap) (h : composeStep map seqs st = .ok (d, seqs2)) :
    d.control = some st.control ∧
    (st.action ∈ ["ARM", "DISARM", "TAKEOFF", "LAND", "GOTO", "SPEED", "YAW", "WAIT"] →
      d.drone = some st.drone ∧ d.state_id = some st.state_id) ∧
    (st.action ∈ ["HOLD", "RETURN", "CIRCLE"] → d.drone = none ∧ d.state_id = none) ∧
    (st.action = "FOLLOW" → d.state_id = none ∧
      d.drone = (if (pyGet st.params "target").isSome then none else some st.drone)) ∧
    (st.action ∉ ["ARM", "DISARM", "TAKEOFF", "LAND", "GOTO", "SPEED", "YAW",
        "HOLD", "RETURN", "CIRCLE", "FOLLOW", "WAIT"] →
      d.drone = some st.drone ∧ d.state_id = none) := by
  obtain ⟨h1, -, -, -, -, h6, h7, h8, h9⟩ := composeStep_inversion map seqs st d seqs2 h
  exact ⟨h1, h6, h7, h8, h9⟩

end UAV

namespace UAV

/-- C4 witness: the counter theorem instantiated at a FOLLOW step
(which consumes no sequence number). -/
theorem c4_sequence_counter_per_drone_witness :
    (∀ ds dr, seqGet (initSeqs ds) dr = 0) ∧
    seqGet ([] : SeqMap) exStepFollow.drone =
      (if exStepFollow.action ∈ ["TAKEOFF", "LAND", "GOTO", "HOLD", "CIRCLE"]
       then seqGet ([] : SeqMap) exStepFollow.drone + 1
       else seqGet ([] : SeqMap) exStepFollow.drone) ∧
    (∀ d2, d2 ≠ exStepFollow.drone →
      seqGet ([] : SeqMap) d2 = seqGet ([] : SeqMap) d2) ∧
    (exDescFollow.dtype = "MISSION_ITEM_INT" →
      exDescFollow.seq = some (seqGet ([] : SeqMap) exStepFollow.drone)) ∧
    (exDescFollow.dtype = "MISSION_ITEM_INT" →
      exStepFollow.action ∈ ["TAKEOFF", "LAND", "GOTO", "HOLD", "CIRCLE"]) :=
  c4_sequence_counter_per_drone exSysMap [] exStepFollow exDescFollow [] (by decide)

/-- C5 witness: the provenance theorem instantiated at the same FOLLOW
step (no target, so its UNSUPPORTED descriptor carries the drone but no
state_id, and the control clause verbatim). -/
theorem c5_descriptor_provenance_witness :
    exDescFollow.control = some exStepFollow.control ∧
    (exStepFollow.action ∈ ["ARM", "DISARM", "TAKEOFF", "LAND", "GOTO", "SPEED", "YAW", "WAIT"] →
      exDescFollow.drone = some exStepFollow.drone ∧
      exDescFollow.state_id = some exStepFollow.state_id) ∧
    (exStepFollow.action ∈ ["HOLD", "RETURN", "CIRCLE"] →
      exDescFollow.drone = none ∧ exDescFollow.state_id = none) ∧
    (exStepFollow.action = "FOLLOW" → exDescFollow.state_id = none ∧
      exDescFollow.drone =
        (if (pyGet exStepFollow.params "target").isSome then none else some exStepFollow.drone)) ∧
    (exStepFollow.action ∉ ["ARM", "DISARM", "TAKEOFF", "LAND", "GOTO", "SPEED", "YAW",
        "HOLD", "RETURN", "CIRCLE", "FOLLOW", "WAIT"] →
      exDescFollow.drone = some exStepFollow.drone ∧ exDescFollow.state_id = none) :=
  c5_descriptor_provenance exSysMap [] exStepFollow exDescFollow [] (by decide)

end UAV
